import Mathlib

/-!
# A verification model of the Tidal interpreter core

This file is a shallow embedding, in Lean 4, of the evaluator of the Tidal
scripting-language interpreter (`src/interpreter.rs`, with the runtime value
model of `src/parser.rs`, the error taxonomy of `src/error.rs` and the
standard/embedded libraries of `src/libs/`).

Modelling conventions, fixed once here:

* Machine integers: Tidal numbers are Rust `i32`. They are modelled as `Int`,
  with two's-complement wrapping (`wrap32`) applied exactly where release-mode
  Rust wraps (`+`, `-`, `*`, `pow`), and with the unconditional Rust panics of
  `/` and `%` (division by zero, `i32::MIN / -1`) modelled by the `abort`
  result. A Rust panic (`unwrap` of `None`/`Err`, arithmetic abort) is the
  `abort` constructor of the result type; it is distinct from the structured
  `Error` channel.
* Floats: Rust `f64` is modelled as exact rational arithmetic (`ℚ`). Every
  f64 operation this development actually evaluates is exact in IEEE-754
  (integer-valued conversions, division results that are only compared by
  kind, square roots of perfect squares), so the abstraction is faithful on
  every input any theorem below touches. Infinities/NaN and rounding are
  outside the model and outside every claim.
* Arrays: `Value::Array(Arc<Mutex<Vec<Value>>>)` is a shared handle. The model
  gives each backing sequence an address into an explicit store
  (`RunState.store`); copying the handle copies the address. The per-operation
  lock is invisible single-threadedly and is not modelled.
* I/O: stdout is modelled as the `output` string of `RunState` (`println!`
  appends the display form plus a newline); stdin as a list of pending lines.
  The `is_verbose` flag of `interpret_node` only adds log lines and is
  modelled as permanently off.
* The process-wide `FUNCTION_CACHE` of `interpreter.rs` is declared but never
  read or written by the interpreter code modelled here, and is omitted.
* External libraries (`load_external_library`) read the file system. Per the
  claims settled here, the script has no sibling `.tdx` files, so the load
  fails with `FileNotFound`; this is the only file-system behaviour modelled.
* HashMaps are modelled as association lists looked up front-to-back;
  insertion conses a new binding at the front, which is observationally the
  replace-semantics of `HashMap::insert` for every lookup the code performs.
  The scope stack (`Vec<Scope>`, innermost last, scanned with `.rev()`) is
  stored innermost-first so that plain list order is the scan order.
-/

namespace Tidal

/-- Binary/unary operator tokens of `lexer.rs` that reach the evaluator. -/
inductive Token where
  | Plus | Minus | Multiply | Divide | FloorDivide | Modulus | Power
  | Equal | NotEqual | Greater | Less | GreaterEqual | LessEqual
  | And | Or | Not


/-- The syntax tree of `parser.rs` as consumed by `interpret_node`
(`ASTNode::Type` is rendered `TypeOf` and `ASTNode::Import` is rendered
`ImportLib`, since `Type` is a Lean keyword and no line of this file may
begin with the word import). -/
inductive ASTNode where
  | Number (n : Int)
  | String (s : String)
  | Boolean (b : Bool)
  | Float (q : ℚ)
  | Null
  | BinaryOp (l : ASTNode) (op : Token) (r : ASTNode)
  | Print (e : ASTNode)
  | Var (name : String) (init : Option ASTNode) (is_mutable : Bool)
  | Assign (name : String) (e : ASTNode)
  | UnaryOp (op : Token) (e : ASTNode)
  | Identifier (name : String)
  | Index (e : ASTNode) (i : ASTNode)
  | IndexAssign (a : ASTNode) (i : ASTNode) (v : ASTNode)
  | TypeOf (e : ASTNode)
  | TypeLiteral (t : String)
  | TypeCast (t : String) (e : ASTNode)
  | If (cond : ASTNode) (then_block : List ASTNode)
       (elif_blocks : List (ASTNode × List ASTNode))
       (else_block : Option (List ASTNode))
  | For (init : ASTNode) (cond : ASTNode) (update : ASTNode)
        (body : List ASTNode)
  | While (cond : ASTNode) (body : List ASTNode)
  | Array (elems : List ASTNode)
  | Break
  | Continue
  | FunctionDecl (name : String) (params : List String) (body : List ASTNode)
  | FunctionCall (name : String) (args : List ASTNode)
  | Input (prompt : ASTNode)
  | LenCall (e : ASTNode)
  | DelCall (e : ASTNode)
  | Return (e : Option ASTNode)
  | ImportLib (name : String) (mode : Option String)
  | LibraryAccess (lib : String) (item : String)
  | LibraryFunctionCall (lib : String) (fn : String) (args : List ASTNode)


/-- Runtime values (`Value` of `parser.rs`, with the array representation of
`interpreter.rs`: `Array` is a handle — here an address into the store). -/
inductive Value where
  | Number (n : Int)
  | String (s : String)
  | Boolean (b : Bool)
  | Float (q : ℚ)
  | Null
  | TypeTag (t : String)
  | Break
  | Continue
  | Array (addr : Nat)
  | Function (name : String) (params : List String) (body : List ASTNode)
  | ReturnValue (v : Value)


/-- The error taxonomy of `error.rs`. -/
inductive Error where
  | SyntaxError (msg : String)
  | IndexOutOfBounds (msg : String)
  | VariableNotDeclared (msg : String)
  | VariableAlreadyDeclared (msg : String)
  | TypeError (msg : String)
  | UnsupportedOperation (msg : String)
  | BreakOutsideLoop
  | ContinueOutsideLoop
  | FileNotFound (msg : String)
  | InvalidFileExtension (msg : String)
  | LexerError (msg : String)
  | ParserError (msg : String)
  | InterpreterError (msg : String)
  | UnknownError (msg : String)
  | CannotGetLength (t : String) (v : Value)
  | DelRequiresVariableName
  | FunctionCallError (msg : String)
  | InvalidArrayIdentifier
  | InvalidFunctionArguments (name : String) (expected got : Nat)
  | InvalidIndex
  | LibraryError (msg : String)
  | ReturnOutsideFunction
  | UnexpectedValue (msg : String)
  | UnsupportedUnaryOperation


/-- One scope: `HashMap<String, (Value, bool)>` as an association list. -/
abbrev Scope := List (String × Value × Bool)

/-- The snapshot placed in `Environment.parent` by the function-call arm of
`interpret_node` (interpreter.rs:697-703). The interpreter only ever builds
parents whose own `parent` field is `None` (the constructor
`new_with_parent` is commented out in the source), so the snapshot type
omits that always-`None` field. -/
structure EnvSnapshot where
  scopes : List Scope
  functions : List (String × Value)
  in_function : Bool
  libraries : List String


/-- `Environment` of `interpreter.rs`. `libraries` holds the names of the
imported libraries; every library reachable by the claims (`std`, `math`,
`sys`, `os`) carries no mutable state, so the name determines the library
and `box_clone` is name-copying. -/
structure Environment where
  scopes : List Scope
  functions : List (String × Value)
  in_function : Bool
  libraries : List String
  parent : Option EnvSnapshot


/-- A host/OS action issued by a `sys`/`os` library function. The model
records each issued action in a log and answers its outcome from the host
oracle below. -/
inductive HostAction where
  | set_env (name value : String)
  | unset_env (name : String)
  | make_dirs (path : String)
  | run_command (cmd : String)
  | rename_path (src dst : String)
  | remove_file (path : String)
  | change_dir (path : String)
  | remove_dirs (path : String)

/-- The host process/OS world read and written by the `sys` and `os`
libraries (`libs/sys.rs`, `libs/os.rs`). Environment variables are tracked
precisely (`env::set_var`/`remove_var`/`var` are an exact key-value store);
everything else the OS decides — pids, the working directory, file-system
queries, command statuses, path canonicalization, load averages, the
compile-target constants, `size_of::<Value>()` — is a fixed oracle field:
each library function performs the source's argument validation and
`Result` plumbing and draws the host's answer from here. Issued mutating
actions are appended to `log`; the query oracles are fixed functions, i.e.
the model is parametric in (not a simulator of) the surrounding OS. -/
structure HostState where
  env_vars : List (String × String)
  pid : Int
  cwd : Except String String
  canonical : String → Option String
  load_avg : Option (ℚ × ℚ × ℚ)
  sizeof_value : Int
  fs_exists : String → Bool
  fs_is_file : String → Bool
  fs_is_dir : String → Bool
  fs_listdir : String → Except String (List String)
  fs_outcome : HostAction → Option String
  cmd_result : String → Except String Int
  target_os : String
  os_name : String
  arch : String
  version : String
  executable : Option String
  log : List HostAction

/-- The world threaded through evaluation: the array store (one entry per
`Arc<Mutex<Vec<Value>>>` allocation), collected stdout, pending stdin, and
the host/OS world. -/
structure RunState where
  store : List (List Value)
  output : String
  stdin_lines : List String
  host : HostState


/-- Result of evaluating one node: a value, a structured `Error`, a Rust
panic (`abort`), intentional process termination (`exit`, from
`sys.exit(code)`'s `std::process::exit`), or fuel exhaustion (`spin` — the
model's witness that the source diverges past the given step budget).
`ok`/`err` carry the caller's environment and the world as left by the
evaluation. -/
inductive StepRes where
  | ok (v : Value) (env : Environment) (st : RunState)
  | err (e : Error) (env : Environment) (st : RunState)
  | abort (msg : String)
  | exit (code : Int)
  | spin


/-- Result of a library function call (`Fn(Vec<Value>) -> Result<Value, Error>`
plus its effect on the world; `exit` is `sys.exit`'s process termination). -/
inductive LibRes where
  | ok (v : Value) (st : RunState)
  | err (e : Error) (st : RunState)
  | abort (msg : String)
  | exit (code : Int)


/-! ## i32 and string primitives -/

/-- Two's-complement wrap into `i32`, the release-mode behaviour of Rust
`+`, `-`, `*` and `pow` on `i32`. -/
def wrap32 (n : Int) : Int := (n + 2147483648) % 4294967296 - 2147483648

/-- `n as u32` (two's-complement reinterpretation). -/
def asU32 (n : Int) : Nat := (n % 4294967296).toNat

/-- `n as usize` on a 64-bit target. -/
def asU64 (n : Int) : Nat := (n % 18446744073709551616).toNat

/-- Rust `i32` division `l / r`: truncation toward zero; panics on `r = 0`
and on `i32::MIN / -1` (in every build profile). -/
def i32Div (l r : Int) : Except String Int :=
  if r = 0 then .error "attempt to divide by zero"
  else if l = -2147483648 ∧ r = -1 then .error "attempt to divide with overflow"
  else .ok (Int.tdiv l r)

/-- Rust `i32` remainder `l % r` (sign of the dividend); panics on `r = 0`
and on `i32::MIN % -1`. -/
def i32Mod (l r : Int) : Except String Int :=
  if r = 0 then
    .error "attempt to calculate the remainder with a divisor of zero"
  else if l = -2147483648 ∧ r = -1 then
    .error "attempt to calculate the remainder with overflow"
  else .ok (Int.tmod l r)

/-- Rust `l.pow(e)` on `i32` with wrapping (release profile). -/
def i32Pow (l : Int) (e : Nat) : Int := wrap32 (l ^ e)

/-- Decimal digits of an all-digit string, as a number. -/
def digitsVal (s : String) : Nat :=
  s.data.foldl (fun acc c => acc * 10 + (c.toNat - 48)) 0

/-- `s.parse::<i32>()` restricted to all-decimal-digit strings (the only
strings the `int(...)` cast hands it): fails on the empty string and on
values exceeding `i32::MAX`. -/
def parseI32AllDigits (s : String) : Option Int :=
  if s = "" then none
  else if digitsVal s ≤ 2147483647 then some (digitsVal s) else none

/-- A simple exact decimal parser standing in for `s.parse::<f64>()`
(optional sign, digits, optional fractional digits; the f64 grammar is
richer and rounds, but no claim exercises this cast). -/
def parseF64Model (s : String) : Option ℚ :=
  let core : List Char → Option ℚ := fun cs =>
    match cs.splitOn '.' with
    | [intPart] =>
        if intPart ≠ [] ∧ intPart.all (·.isDigit) then
          some ((digitsVal (String.mk intPart) : ℚ))
        else none
    | [intPart, fracPart] =>
        if intPart ≠ [] ∧ intPart.all (·.isDigit) ∧
            fracPart ≠ [] ∧ fracPart.all (·.isDigit) then
          some (((digitsVal (String.mk intPart)) : ℚ) +
            ((digitsVal (String.mk fracPart)) : ℚ) / ((10 : ℚ) ^ fracPart.length))
        else none
    | _ => none
  match s.data with
  | '-' :: rest => (core rest).map (fun q => -q)
  | cs => core cs

/-- Kernel-computable perfect-square root. -/
def perfectSqrt (n : Nat) : Option Nat :=
  (List.range (n + 1)).findSome? (fun k => if k * k = n then some k else none)

/-- `f64::sqrt`, modelled exactly on perfect squares of naturals (where the
IEEE-754 result is exact — the only inputs evaluated below); every other
input gets an out-of-model stand-in value. -/
def f64Sqrt (q : ℚ) : ℚ :=
  if q.den = 1 ∧ 0 ≤ q.num then
    match perfectSqrt q.num.toNat with
    | some k => (k : ℚ)
    | none => 0
  else 0

/-- Saturating `f64 as i32` / clamp of an overflowing integer cast. -/
def satI32 (n : Int) : Int := max (-2147483648) (min 2147483647 n)

/-- Truncation of a rational toward zero (`f64` to integer direction). -/
def ratTrunc (q : ℚ) : Int := if 0 ≤ q then q.floor else q.ceil

/-- `f64::round`: round half away from zero, exactly on rationals. -/
def ratRound (q : ℚ) : Int :=
  if 0 ≤ q then (q + 1/2).floor else -((-q + 1/2).floor)

/-- `f64::powf`, exactly on integer exponents (where the IEEE-754 result of
integral bases is the true power whenever representable); non-integer
exponents get an out-of-model stand-in. -/
def f64Pow (l r : ℚ) : ℚ := if r.den = 1 then l ^ r.num else 0

/-- `String::repeat` (`s.repeat(count)`); panics with a capacity overflow
when `s.len() * count` overflows `usize` (which is what a negative Tidal
number cast to `usize` produces for any non-empty string). -/
def strRepeat (s : String) (count : Nat) : Option String :=
  if s.utf8ByteSize * count < 18446744073709551616 then
    some (String.join (List.replicate count s))
  else none

/-- Non-overlapping substring occurrence count (`s.matches(sub).count()`),
for non-empty `sub` (`count` is only called with the arguments the
`std.count` built-in passes it). -/
def countMatches (s sub : String) : Nat := (s.splitOn sub).length - 1

/-- ASCII upper-casing, standing in for Rust's Unicode `to_uppercase` (the
claims only pass ASCII). -/
def asciiUpper (s : String) : String := String.mk (s.data.map Char.toUpper)

/-- ASCII lower-casing, standing in for Rust's Unicode `to_lowercase`. -/
def asciiLower (s : String) : String := String.mk (s.data.map Char.toLower)

/-- `str::trim`. -/
def trimModel (s : String) : String :=
  String.mk ((s.data.dropWhile (·.isWhitespace)).reverse.dropWhile
    (·.isWhitespace)).reverse

/-! ## Environment operations (`impl Environment`, interpreter.rs:63-221) -/

/-- Lookup in one scope's map. -/
def scopeGet : Scope → String → Option (Value × Bool)
  | [], _ => none
  | (k, vb) :: rest, n => if k = n then some vb else scopeGet rest n

/-- `Environment::get` / the read half of `get_mut`: scan the scope stack
innermost-first (the model's list order is the source's `.iter().rev()`
order). -/
def scopesGet : List Scope → String → Option (Value × Bool)
  | [], _ => none
  | sc :: rest, n =>
    match scopeGet sc n with
    | some vb => some vb
    | none => scopesGet rest n

def Environment.get (env : Environment) (n : String) : Option (Value × Bool) :=
  scopesGet env.scopes n

/-- Replace the value stored for `n` in one scope, keeping its mutability. -/
def scopeSetVal : Scope → String → Value → Scope
  | [], _, _ => []
  | (k, v0, m) :: rest, n, v =>
    if k = n then (k, v, m) :: rest else (k, v0, m) :: scopeSetVal rest n v

/-- The write half of `get_mut` + `*current_value = ...`: update the
innermost scope that declares `n`. -/
def scopesSetVal : List Scope → String → Value → List Scope
  | [], _, _ => []
  | sc :: rest, n, v =>
    match scopeGet sc n with
    | some _ => scopeSetVal sc n v :: rest
    | none => sc :: scopesSetVal rest n v

def Environment.setVar (env : Environment) (n : String) (v : Value) :
    Environment :=
  { env with scopes := scopesSetVal env.scopes n v }

/-- `Environment::insert_var`: insert into the innermost scope (a no-op when
the scope stack is empty, as the source's `if let Some(scope)` is). -/
def Environment.insert_var (env : Environment) (n : String) (v : Value)
    (m : Bool) : Environment :=
  match env.scopes with
  | [] => env
  | sc :: rest => { env with scopes := ((n, v, m) :: sc) :: rest }

/-- `Environment::insert_function`. -/
def Environment.insert_function (env : Environment) (n : String) (v : Value) :
    Environment :=
  { env with functions := (n, v) :: env.functions }

/-- Lookup in the function table (`env.functions.get(name)`). -/
def funsGet : List (String × Value) → String → Option Value
  | [], _ => none
  | (k, v) :: rest, n => if k = n then some v else funsGet rest n

/-- `HashMap::remove` for the innermost scope (`DelCall`). -/
def scopeRemove : Scope → String → Scope
  | [], _ => []
  | (k, vb) :: rest, n => if k = n then rest else (k, vb) :: scopeRemove rest n

/-- `Environment::has_library`: the current table, then the parent's (the
interpreter only ever builds one level of parent). -/
def Environment.has_library (env : Environment) (n : String) : Bool :=
  env.libraries.contains n ||
    (match env.parent with
     | some p => p.libraries.contains n
     | none => false)

/-- `Environment::push_scope`. -/
def Environment.push_scope (env : Environment) : Environment :=
  { env with scopes := [] :: env.scopes }

/-- `Environment::pop_scope`. -/
def Environment.pop_scope (env : Environment) : Environment :=
  { env with scopes := env.scopes.tail }

/-- The names `StdLib::register_functions` installs (std.rs:52-260). -/
def stdFunctionNames : List String :=
  ["print", "len", "del", "type", "input", "copy", "extend", "insert",
   "sort", "reverse", "clear", "count", "upper", "lower", "strip"]

/-- `Environment::new` (interpreter.rs:64-84): one empty scope, a
zero-arity `std.<name>` placeholder `Function` for every standard-library
name (HashMap iteration order is irrelevant to every lookup performed), and
the `std` library pre-registered. -/
def Environment.new : Environment :=
  { scopes := [[]]
    functions :=
      stdFunctionNames.map (fun n => (n, Value.Function ("std." ++ n) [] []))
    in_function := false
    libraries := ["std"]
    parent := none }

/-! ## Display (`impl fmt::Display for Value`, interpreter.rs:19-43) -/

/-- `type_str_of_value` (interpreter.rs:325-339). -/
def typeStr : Value → String
  | .Number _ => "int"
  | .String _ => "str"
  | .Boolean _ => "bool"
  | .Float _ => "float"
  | .Null => "null"
  | .TypeTag _ => "type"
  | .Break => "break"
  | .Continue => "continue"
  | .Array _ => "array"
  | .Function _ _ _ => "function"
  | .ReturnValue v => typeStr v

/-- Display form of a float. Stands in for Rust's `f64` formatting; the two
agree on the integer-valued floats that are the only floats any claim
prints. -/
def dispFloat (q : ℚ) : String :=
  if q.den = 1 then toString q.num
  else toString q.num ++ "/" ++ toString q.den

mutual
/-- The `Display` impl for `Value`. Fueled because arrays can (only through
cyclic stores) nest unboundedly — Rust overflows the stack there; the model
truncates. Every call below passes ample fuel for the acyclic case. -/
def dispVal : Nat → List (List Value) → Value → String
  | 0, _, _ => ""
  | fuel + 1, store, v =>
    match v with
    | .Number n => toString n
    | .String s => s
    | .Boolean b => if b then "true" else "false"
    | .Float q => dispFloat q
    | .Null => "null"
    | .TypeTag t => t
    | .Break => "break"
    | .Continue => "continue"
    | .Array addr => "[" ++ dispElems fuel store (store.getD addr []) ++ "]"
    | .Function name _ _ => "<function " ++ name ++ ">"
    | .ReturnValue w => dispVal fuel store w

/-- Comma-joined element display of an array row. -/
def dispElems : Nat → List (List Value) → List Value → String
  | 0, _, _ => ""
  | _ + 1, _, [] => ""
  | fuel + 1, store, [v] => dispVal fuel store v
  | fuel + 1, store, v :: rest =>
    dispVal fuel store v ++ ", " ++ dispElems fuel store rest
end

/-- Fuel budget for one `Display` rendering: ample for every acyclic store. -/
def dispFuel (store : List (List Value)) : Nat :=
  2 + 2 * store.length + 2 * (store.map List.length).sum

/-! ## The standard library (`libs/std.rs`) -/

/-- The signature of a library function
(`Fn(Vec<Value>) -> Result<Value, Error>`, plus its effect on the world). -/
abbrev LibFun := List Value → RunState → LibRes

/-- Modelled from the spec: equality of runtime values, as used by the
`std.count` built-in (`*x == value`). The `PartialEq` impl for `Value` is
not under src/ — only this caller is. Scalars compare by payload, arrays by
handle, functions by name and parameters. No claim evaluates `count`. -/
def valEqModel : Value → Value → Bool
  | .Number a, .Number b => a == b
  | .String a, .String b => a == b
  | .Boolean a, .Boolean b => a == b
  | .Float a, .Float b => a == b
  | .Null, .Null => true
  | .TypeTag a, .TypeTag b => a == b
  | .Break, .Break => true
  | .Continue, .Continue => true
  | .Array a, .Array b => a == b
  | .Function n p _, .Function n2 p2 _ => n == n2 && p == p2
  | .ReturnValue a, .ReturnValue b => valEqModel a b
  | _, _ => false

/-- Modelled from the spec: the value ordering used by the `std.sort`
built-in (`a.partial_cmp(b)`). The `PartialOrd` impl for `Value` is not
under src/ — only this caller is. Numeric and string values are ordered;
any other pair is incomparable, which `sort`'s `unwrap` turns into a panic.
No theorem below depends on the order itself. -/
def valCompare : Value → Value → Option Ordering
  | .Number a, .Number b => some (compare a b)
  | .Float a, .Float b => some (compare a b)
  | .Number a, .Float b => some (compare (a : ℚ) b)
  | .Float a, .Number b => some (compare a (b : ℚ))
  | .String a, .String b => some (compare a b)
  | .Boolean a, .Boolean b => some (compare a b)
  | _, _ => none

/-- Ordered insertion under the partial comparison; `none` is the panic of
`partial_cmp(..).unwrap()` on an incomparable pair. -/
def insertSorted : Value → List Value → Option (List Value)
  | x, [] => some [x]
  | x, y :: rest =>
    match valCompare x y with
    | none => none
    | some .gt => (insertSorted x rest).map (fun r => y :: r)
    | some _ => some (x :: y :: rest)

/-- `vec.sort_by(|a, b| a.partial_cmp(b).unwrap())`, as a stable insertion
sort under `valCompare`. -/
def sortVals : List Value → Option (List Value)
  | [] => some []
  | x :: rest =>
    match sortVals rest with
    | none => none
    | some r => insertSorted x r

/-- `std.print` (std.rs:54-60). -/
def stdPrint : LibFun := fun args st =>
  match args with
  | [v] =>
    .ok .Null
      { st with
        output := st.output ++ dispVal (dispFuel st.store) st.store v ++ "\n" }
  | _ => .err (.TypeError "print() takes exactly 1 argument") st

/-- `std.len` (std.rs:63-78). -/
def stdLen : LibFun := fun args st =>
  match args with
  | [v] =>
    match v with
    | .String s => .ok (.Number s.data.length) st
    | .Array a => .ok (.Number (st.store.getD a []).length) st
    | _ => .err (.CannotGetLength (typeStr v) v) st
  | _ => .err (.TypeError "len() takes exactly 1 argument") st

/-- `std.del` (std.rs:81-87): the actual deletion happens in the
interpreter's `DelCall` arm. -/
def stdDel : LibFun := fun args st =>
  match args with
  | [_] => .ok .Null st
  | _ => .err (.TypeError "del() takes exactly 1 argument") st

/-- `std.type` (std.rs:90-95). -/
def stdType : LibFun := fun args st =>
  match args with
  | [v] => .ok (.TypeTag (typeStr v)) st
  | _ => .err (.TypeError "type() takes exactly 1 argument") st

/-- `std.input` (std.rs:98-110): print the prompt (no newline), read one
line, trim it. -/
def stdInput : LibFun := fun args st =>
  match args with
  | [v] =>
    .ok (.String (trimModel (st.stdin_lines.headD "")))
      { st with
        output := st.output ++ dispVal (dispFuel st.store) st.store v
        stdin_lines := st.stdin_lines.tail }
  | _ => .err (.TypeError "input() takes exactly 1 argument") st

/-- `std.copy` (std.rs:113-124): deep-clone the backing sequence into a
fresh allocation. -/
def stdCopy : LibFun := fun args st =>
  match args with
  | [v] =>
    match v with
    | .Array a =>
      .ok (.Array st.store.length)
        { st with store := st.store ++ [st.store.getD a []] }
    | _ => .err (.TypeError "copy() requires array argument") st
  | _ => .err (.TypeError "copy() takes exactly 1 argument") st

/-- `std.extend` (std.rs:127-139): a fresh array holding the concatenation. -/
def stdExtend : LibFun := fun args st =>
  match args with
  | [v, w] =>
    match v, w with
    | .Array a, .Array b =>
      .ok (.Array st.store.length)
        { st with store := st.store ++ [st.store.getD a [] ++ st.store.getD b []] }
    | _, _ => .err (.TypeError "extend() requires two array arguments") st
  | _ => .err (.TypeError "extend() takes exactly 2 arguments") st

/-- `std.insert` (std.rs:142-168): push (2 args) or positional insert
(3 args) **in place** through the shared handle, returning the same
handle (`Arc::clone(arr)`). -/
def stdInsert : LibFun := fun args st =>
  match args with
  | [v, x] =>
    match v with
    | .Array a =>
      .ok (.Array a) { st with store := st.store.set a (st.store.getD a [] ++ [x]) }
    | _ => .err (.TypeError "First argument must be an array") st
  | [v, x, ix] =>
    match v with
    | .Array a =>
      match ix with
      | .Number index =>
        if index < 0 ∨ (st.store.getD a []).length < index then
          .err (.IndexOutOfBounds "Insert index out of bounds") st
        else
          .ok (.Array a)
            { st with
              store := st.store.set a
                ((st.store.getD a []).insertIdx index.toNat x) }
      | _ => .err (.TypeError "Index must be a number") st
    | _ => .err (.TypeError "First argument must be an array") st
  | _ => .err (.TypeError "insert() takes 2 or 3 arguments") st

/-- `std.sort` (std.rs:171-183): clone the backing sequence, sort the clone,
return it as a fresh allocation; an incomparable pair panics. -/
def stdSort : LibFun := fun args st =>
  match args with
  | [v] =>
    match v with
    | .Array a =>
      match sortVals (st.store.getD a []) with
      | some sorted =>
        .ok (.Array st.store.length) { st with store := st.store ++ [sorted] }
      | none => .abort "called `Option::unwrap()` on a `None` value"
    | _ => .err (.TypeError "sort() requires array argument") st
  | _ => .err (.TypeError "sort() takes exactly 1 argument") st

/-- `std.reverse` (std.rs:186-198): a fresh allocation holding the reversed
clone. -/
def stdReverse : LibFun := fun args st =>
  match args with
  | [v] =>
    match v with
    | .Array a =>
      .ok (.Array st.store.length)
        { st with store := st.store ++ [(st.store.getD a []).reverse] }
    | _ => .err (.TypeError "reverse() requires array argument") st
  | _ => .err (.TypeError "reverse() takes exactly 1 argument") st

/-- `std.clear` (std.rs:201-209): a fresh empty allocation. -/
def stdClear : LibFun := fun args st =>
  match args with
  | [v] =>
    match v with
    | .Array _ => .ok (.Array st.store.length) { st with store := st.store ++ [[]] }
    | _ => .err (.TypeError "clear() requires array argument") st
  | _ => .err (.TypeError "clear() takes exactly 1 argument") st

/-- `std.count` (std.rs:212-226). -/
def stdCount : LibFun := fun args st =>
  match args with
  | [v, w] =>
    match v, w with
    | .Array a, value =>
      .ok (.Number ((st.store.getD a []).countP (fun x => valEqModel x value))) st
    | .String s, .String sub => .ok (.Number (countMatches s sub)) st
    | _, _ =>
      .err (.TypeError "count() requires (array, value) or (string, string) arguments") st
  | _ => .err (.TypeError "count() takes exactly 2 arguments") st

/-- `std.upper` (std.rs:229-237). -/
def stdUpper : LibFun := fun args st =>
  match args with
  | [v] =>
    match v with
    | .String s => .ok (.String (asciiUpper s)) st
    | _ => .err (.TypeError "upper() requires string argument") st
  | _ => .err (.TypeError "upper() takes exactly 1 argument") st

/-- `std.lower` (std.rs:240-248). -/
def stdLower : LibFun := fun args st =>
  match args with
  | [v] =>
    match v with
    | .String s => .ok (.String (asciiLower s)) st
    | _ => .err (.TypeError "lower() requires string argument") st
  | _ => .err (.TypeError "lower() takes exactly 1 argument") st

/-- `std.strip` (std.rs:251-259). -/
def stdStrip : LibFun := fun args st =>
  match args with
  | [v] =>
    match v with
    | .String s => .ok (.String (trimModel s)) st
    | _ => .err (.TypeError "strip() requires string argument") st
  | _ => .err (.TypeError "strip() takes exactly 1 argument") st

/-- `StdLib::get_function`. -/
def stdGetFunction : String → Option LibFun
  | "print" => some stdPrint
  | "len" => some stdLen
  | "del" => some stdDel
  | "type" => some stdType
  | "input" => some stdInput
  | "copy" => some stdCopy
  | "extend" => some stdExtend
  | "insert" => some stdInsert
  | "sort" => some stdSort
  | "reverse" => some stdReverse
  | "clear" => some stdClear
  | "count" => some stdCount
  | "upper" => some stdUpper
  | "lower" => some stdLower
  | "strip" => some stdStrip
  | _ => none

/-! ## The embedded libraries (`libs/math.rs`, `libs/sys.rs`, `libs/os.rs`) -/

/-- `math.abs` (math.rs:42-51). `i32::abs` wraps on `i32::MIN` in release
builds. -/
def mathAbs : LibFun := fun args st =>
  match args with
  | [v] =>
    match v with
    | .Number n => .ok (.Number (wrap32 n.natAbs)) st
    | .Float q => .ok (.Float |q|) st
    | _ => .err (.TypeError "abs() requires numeric argument") st
  | _ => .err (.TypeError "abs() takes exactly 1 argument") st

/-- `math.sqrt` (math.rs:92-100), through the `f64Sqrt` model. -/
def mathSqrt : LibFun := fun args st =>
  match args with
  | [v] =>
    match v with
    | .Number n => .ok (.Float (f64Sqrt (n : ℚ))) st
    | .Float q => .ok (.Float (f64Sqrt q)) st
    | _ => .err (.TypeError "sqrt() requires numeric argument") st
  | _ => .err (.TypeError "sqrt() takes exactly 1 argument") st

/-- Uninterpreted stand-ins for the transcendental `f64` operations of
`math.rs` (`sin`, `cos`, `tan`, `ln`, two-argument `log`). Their IEEE-754
values are rounded transcendentals, beyond the exact-rational float model;
the value is fixed arbitrarily at `0`. The model pins what the claims use:
table membership, the source's argument validation, and the `Float` result
kind — no claim reads these values. -/
def f64Sin : ℚ → ℚ := fun _ => 0

/-- See `f64Sin`. -/
def f64Cos : ℚ → ℚ := fun _ => 0

/-- See `f64Sin`. -/
def f64Tan : ℚ → ℚ := fun _ => 0

/-- See `f64Sin`. -/
def f64Ln : ℚ → ℚ := fun _ => 0

/-- See `f64Sin`. -/
def f64Log : ℚ → ℚ → ℚ := fun _ _ => 0

/-- `math.pow` (math.rs:53-68): every numeric pair goes through
`f64::powf`, modelled by `f64Pow`. -/
def mathPow : LibFun := fun args st =>
  match args with
  | [a, b] =>
    match a, b with
    | .Number base, .Number e => .ok (.Float (f64Pow (base : ℚ) (e : ℚ))) st
    | .Float base, .Number e => .ok (.Float (f64Pow base (e : ℚ))) st
    | .Number base, .Float e => .ok (.Float (f64Pow (base : ℚ) e)) st
    | .Float base, .Float e => .ok (.Float (f64Pow base e)) st
    | _, _ => .err (.TypeError "pow() requires numeric arguments") st
  | _ => .err (.TypeError "pow() takes exactly 2 arguments") st

/-- `calculate_gcd` (math.rs:75-84): Euclid on the absolute values. Exact
for |a|, |b| < 2^31; the release-mode wrap of `i32::MIN.abs()` is outside
the in-range model (and outside every claim). -/
def calculateGcd (a b : Int) : Int := (Nat.gcd a.natAbs b.natAbs : Int)

/-- `math.gcd` (math.rs:70-90). -/
def mathGcd : LibFun := fun args st =>
  match args with
  | [a, b] =>
    match a, b with
    | .Number x, .Number y => .ok (.Number (calculateGcd x y)) st
    | _, _ => .err (.TypeError "gcd() requires integer arguments") st
  | _ => .err (.TypeError "gcd() takes exactly 2 arguments") st

/-- The shared shape of `math.rs`'s one-argument `Float`-returning entries
(`sin` math.rs:104-113, `cos` 115-124, `tan` 126-135, `ln` 155-164): check
arity, promote a `Number`, apply the `f64` operation. -/
def mathFloatUnary (fname : String) (f : ℚ → ℚ) : LibFun := fun args st =>
  match args with
  | [v] =>
    match v with
    | .Number n => .ok (.Float (f (n : ℚ))) st
    | .Float q => .ok (.Float (f q)) st
    | _ => .err (.TypeError (fname ++ "() requires numeric argument")) st
  | _ => .err (.TypeError (fname ++ "() takes exactly 1 argument")) st

/-- The shared shape of `math.rs`'s rounding entries (`ceil` math.rs:167-176,
`floor` 178-187, `round` 189-198): a `Number` passes through unchanged, a
`Float` is rounded and cast `as i32` (saturating). These are exact on
rationals. -/
def mathRoundingUnary (fname : String) (f : ℚ → Int) : LibFun := fun args st =>
  match args with
  | [v] =>
    match v with
    | .Number n => .ok (.Number n) st
    | .Float q => .ok (.Number (satI32 (f q))) st
    | _ => .err (.TypeError (fname ++ "() requires numeric argument")) st
  | _ => .err (.TypeError (fname ++ "() takes exactly 1 argument")) st

/-- `math.log` (math.rs:138-153). -/
def mathLog : LibFun := fun args st =>
  match args with
  | [a, b] =>
    match a, b with
    | .Number n, .Number base => .ok (.Float (f64Log (n : ℚ) (base : ℚ))) st
    | .Float n, .Number base => .ok (.Float (f64Log n (base : ℚ))) st
    | .Number n, .Float base => .ok (.Float (f64Log (n : ℚ) base)) st
    | .Float n, .Float base => .ok (.Float (f64Log n base)) st
    | _, _ => .err (.TypeError "log() requires numeric arguments") st
  | _ => .err (.TypeError "log() takes exactly 2 arguments") st

/-- The names `MathLib::register_functions` installs, in source order. -/
def mathFunctionNames : List String :=
  ["abs", "pow", "gcd", "sqrt", "sin", "cos", "tan", "log", "ln",
   "ceil", "floor", "round"]

/-- `MathLib::get_function`: the full registered table of math.rs. -/
def mathGetFunction : String → Option LibFun
  | "abs" => some mathAbs
  | "pow" => some mathPow
  | "gcd" => some mathGcd
  | "sqrt" => some mathSqrt
  | "sin" => some (mathFloatUnary "sin" f64Sin)
  | "cos" => some (mathFloatUnary "cos" f64Cos)
  | "tan" => some (mathFloatUnary "tan" f64Tan)
  | "log" => some mathLog
  | "ln" => some (mathFloatUnary "ln" f64Ln)
  | "ceil" => some (mathRoundingUnary "ceil" Rat.ceil)
  | "floor" => some (mathRoundingUnary "floor" Rat.floor)
  | "round" => some (mathRoundingUnary "round" ratRound)
  | _ => none

/-- The exact rational value of the `f64` constant `std::f64::consts::PI`. -/
def f64PI : ℚ := 884279719003555 / 281474976710656

/-- The exact rational value of `std::f64::consts::E`. -/
def f64E : ℚ := 6121026514868073 / 2251799813685248

/-- The exact rational value of `std::f64::consts::TAU`. -/
def f64TAU : ℚ := 884279719003555 / 140737488355328

/-- `MathLib::get_constant` (math.rs:34-39). `INF` is `f64::INFINITY`, which
has no rational counterpart; its stand-in is never read by any claim. -/
def mathGetConstant : String → Option Value
  | "PI" => some (.Float f64PI)
  | "E" => some (.Float f64E)
  | "TAU" => some (.Float f64TAU)
  | "INF" => some (.Float 0)
  | _ => none

/-- Environment-variable lookup (`env::var`). -/
def envVarsGet : List (String × String) → String → Option String
  | [], _ => none
  | (k, v) :: rest, n => if k = n then some v else envVarsGet rest n

/-- `env::remove_var`. -/
def envVarsRemove (l : List (String × String)) (n : String) :
    List (String × String) :=
  l.filter (fun kv => !(kv.1 == n))

/-- `env::set_var`. -/
def envVarsSet (l : List (String × String)) (n v : String) :
    List (String × String) :=
  (n, v) :: envVarsRemove l n

/-- Append one issued host action to the log. -/
def RunState.logHost (st : RunState) (a : HostAction) : RunState :=
  { st with host := { st.host with log := st.host.log ++ [a] } }

/-- `sys.exit` (sys.rs:107-117): `std::process::exit(code)` never returns —
the `exit` outcome. -/
def sysExit : LibFun := fun args st =>
  match args with
  | [v] =>
    match v with
    | .Number code => .exit code
    | _ => .err (.TypeError "exit() requires integer argument") st
  | _ => .err (.TypeError "exit() takes exactly 1 argument") st

/-- `sys.getpid` (sys.rs:120-125). -/
def sysGetpid : LibFun := fun args st =>
  match args with
  | [] => .ok (.Number st.host.pid) st
  | _ => .err (.TypeError "getpid() takes no arguments") st

/-- `sys.getenv` (sys.rs:130-143). -/
def sysGetenv : LibFun := fun args st =>
  match args with
  | [v] =>
    match v with
    | .String name =>
      match envVarsGet st.host.env_vars name with
      | some val => .ok (.String val) st
      | none => .ok .Null st
    | _ => .err (.TypeError "getenv() requires string argument") st
  | _ => .err (.TypeError "getenv() takes exactly 1 argument") st

/-- `sys.setenv` (sys.rs:146-157). -/
def sysSetenv : LibFun := fun args st =>
  match args with
  | [a, b] =>
    match a, b with
    | .String name, .String value =>
      .ok .Null
        { st with
          host := { st.host with
            env_vars := envVarsSet st.host.env_vars name value
            log := st.host.log ++ [.set_env name value] } }
    | _, _ => .err (.TypeError "setenv() requires string arguments") st
  | _ => .err (.TypeError "setenv() takes exactly 2 arguments") st

/-- `sys.unsetenv` (sys.rs:160-171). -/
def sysUnsetenv : LibFun := fun args st =>
  match args with
  | [v] =>
    match v with
    | .String name =>
      .ok .Null
        { st with
          host := { st.host with
            env_vars := envVarsRemove st.host.env_vars name
            log := st.host.log ++ [.unset_env name] } }
    | _ => .err (.TypeError "unsetenv() requires string argument") st
  | _ => .err (.TypeError "unsetenv() takes exactly 1 argument") st

/-- `sys.getcwd` (sys.rs:176-190): the working directory, or `Null` when
`current_dir` fails. -/
def sysGetcwd : LibFun := fun args st =>
  match args with
  | [] =>
    match st.host.cwd with
    | .ok p => .ok (.String p) st
    | .error _ => .ok .Null st
  | _ => .err (.TypeError "getcwd() takes no arguments") st

/-- `sys.abspath` (sys.rs:193-213): `canonicalize`, or `Null` on failure. -/
def sysAbspath : LibFun := fun args st =>
  match args with
  | [v] =>
    match v with
    | .String path =>
      match st.host.canonical path with
      | some abs => .ok (.String abs) st
      | none => .ok .Null st
    | _ => .err (.TypeError "abspath() requires string argument") st
  | _ => .err (.TypeError "abspath() takes exactly 1 argument") st

/-- `sys.getloadavg` (sys.rs:218-241, unix branch): a fresh three-element
array of the host's load averages, or `Null` when `sys_info` fails. -/
def sysGetloadavg : LibFun := fun args st =>
  match args with
  | [] =>
    match st.host.load_avg with
    | some (one, five, fifteen) =>
      .ok (.Array st.store.length)
        { st with store := st.store ++ [[.Float one, .Float five, .Float fifteen]] }
    | none => .ok .Null st
  | _ => .err (.TypeError "getloadavg() takes no arguments") st

/-- `sys.getsizeof` (sys.rs:244-256): element count for arrays, byte length
for strings, `size_of::<Value>()` (a layout oracle) otherwise. -/
def sysGetsizeof : LibFun := fun args st =>
  match args with
  | [v] =>
    match v with
    | .Array a => .ok (.Number (st.store.getD a []).length) st
    | .String s => .ok (.Number s.utf8ByteSize) st
    | _ => .ok (.Number st.host.sizeof_value) st
  | _ => .err (.TypeError "getsizeof() takes exactly 1 argument") st

/-- The names `SysLib::register_functions` installs, in source order. -/
def sysFunctionNames : List String :=
  ["exit", "getpid", "getenv", "setenv", "unsetenv", "getcwd", "abspath",
   "getloadavg", "getsizeof"]

/-- `SysLib::get_function`: the full registered table of sys.rs. -/
def sysGetFunction : String → Option LibFun
  | "exit" => some sysExit
  | "getpid" => some sysGetpid
  | "getenv" => some sysGetenv
  | "setenv" => some sysSetenv
  | "unsetenv" => some sysUnsetenv
  | "getcwd" => some sysGetcwd
  | "abspath" => some sysAbspath
  | "getloadavg" => some sysGetloadavg
  | "getsizeof" => some sysGetsizeof
  | _ => none

/-- `PathBuf::join` as used by `makedirs`: an absolute path replaces the
base, otherwise it is appended (separator normalization abstracted). -/
def joinPath (cwd p : String) : String :=
  if p.data.head? = some '/' then p else cwd ++ "/" ++ p

/-- `os.makedirs` (os.rs:55-76): join onto the current directory,
`create_dir_all`, then re-check `is_dir` (the oracle answers each query at
the moment it is made). -/
def osMakedirs : LibFun := fun args st =>
  match args with
  | [v] =>
    match v with
    | .String path =>
      match st.host.cwd with
      | .error e => .err (.InterpreterError e) st
      | .ok cwd =>
        match st.host.fs_outcome (.make_dirs (joinPath cwd path)) with
        | some e =>
          .err (.InterpreterError e) (st.logHost (.make_dirs (joinPath cwd path)))
        | none =>
          if !(st.host.fs_is_dir (joinPath cwd path)) then
            .err (.InterpreterError ("Failed to create directory: " ++ path))
              (st.logHost (.make_dirs (joinPath cwd path)))
          else .ok .Null (st.logHost (.make_dirs (joinPath cwd path)))
    | _ => .err (.TypeError "makedirs() requires string argument") st
  | _ => .err (.TypeError "makedirs() takes exactly 1 argument") st

/-- `os.system`. os.rs registers `system` twice (os.rs:78-106 and
212-235); the second `HashMap::insert` overwrites the first, so the live
entry is the second closure (same validation; it does not read the current
directory). `exit_status.code().unwrap_or(-1)` is folded into the oracle's
status value. -/
def osSystem : LibFun := fun args st =>
  match args with
  | [v] =>
    match v with
    | .String cmd =>
      match st.host.cmd_result cmd with
      | .ok code => .ok (.Number code) (st.logHost (.run_command cmd))
      | .error e => .err (.InterpreterError e) (st.logHost (.run_command cmd))
    | _ => .err (.TypeError "system() requires string argument") st
  | _ => .err (.TypeError "system() takes exactly 1 argument") st

/-- `os.rename` (os.rs:108-120). -/
def osRename : LibFun := fun args st =>
  match args with
  | [a, b] =>
    match a, b with
    | .String src, .String dst =>
      match st.host.fs_outcome (.rename_path src dst) with
      | some e => .err (.InterpreterError e) (st.logHost (.rename_path src dst))
      | none => .ok .Null (st.logHost (.rename_path src dst))
    | _, _ => .err (.TypeError "rename() requires string arguments") st
  | _ => .err (.TypeError "rename() takes exactly 2 arguments") st

/-- `os.remove` (os.rs:122-134): `fs::remove_file`. -/
def osRemove : LibFun := fun args st =>
  match args with
  | [v] =>
    match v with
    | .String path =>
      match st.host.fs_outcome (.remove_file path) with
      | some e => .err (.InterpreterError e) (st.logHost (.remove_file path))
      | none => .ok .Null (st.logHost (.remove_file path))
    | _ => .err (.TypeError "remove() requires string argument") st
  | _ => .err (.TypeError "remove() takes exactly 1 argument") st

/-- The `read_dir` half of `os.listdir` (os.rs:148-159): the entry names as
a fresh array (the source's `Value::Array(files)` is a fresh allocation in
the handle model), or the io error. -/
def osListdirAt (path : String) (st : RunState) : LibRes :=
  match st.host.fs_listdir path with
  | .ok names =>
    .ok (.Array st.store.length)
      { st with store := st.store ++ [names.map Value.String] }
  | .error e => .err (.InterpreterError e) st

/-- `os.listdir` (os.rs:136-160): at most one argument, defaulting to ".". -/
def osListdir : LibFun := fun args st =>
  match args with
  | [] => osListdirAt "." st
  | [v] =>
    match v with
    | .String p => osListdirAt p st
    | _ => .err (.TypeError "listdir() requires string argument") st
  | _ => .err (.TypeError "listdir() takes at most 1 argument") st

/-- `os.chdir` (os.rs:162-174): `set_current_dir`; on success the path
becomes the working directory (path resolution abstracted). -/
def osChdir : LibFun := fun args st =>
  match args with
  | [v] =>
    match v with
    | .String path =>
      match st.host.fs_outcome (.change_dir path) with
      | some e => .err (.InterpreterError e) (st.logHost (.change_dir path))
      | none =>
        .ok .Null
          { (st.logHost (.change_dir path)) with
            host := { (st.logHost (.change_dir path)).host with cwd := .ok path } }
    | _ => .err (.TypeError "chdir() requires string argument") st
  | _ => .err (.TypeError "chdir() takes exactly 1 argument") st

/-- `os.exists` (os.rs:176-186). -/
def osExists : LibFun := fun args st =>
  match args with
  | [v] =>
    match v with
    | .String path => .ok (.Boolean (st.host.fs_exists path)) st
    | _ => .err (.TypeError "exists() requires string argument") st
  | _ => .err (.TypeError "exists() takes exactly 1 argument") st

/-- `os.isfile` (os.rs:188-198). -/
def osIsfile : LibFun := fun args st =>
  match args with
  | [v] =>
    match v with
    | .String path => .ok (.Boolean (st.host.fs_is_file path)) st
    | _ => .err (.TypeError "isfile() requires string argument") st
  | _ => .err (.TypeError "isfile() takes exactly 1 argument") st

/-- `os.isdir` (os.rs:200-210). -/
def osIsdir : LibFun := fun args st =>
  match args with
  | [v] =>
    match v with
    | .String path => .ok (.Boolean (st.host.fs_is_dir path)) st
    | _ => .err (.TypeError "isdir() requires string argument") st
  | _ => .err (.TypeError "isdir() takes exactly 1 argument") st

/-- `os.removedirs` (os.rs:237-273): `remove_dir_all` (oracle outcome) then
the best-effort parent removal, which returns `Ok` on every path in the
source (its `map_err` can never fire) — both folded into one logged
action. -/
def osRemovedirs : LibFun := fun args st =>
  match args with
  | [v] =>
    match v with
    | .String path =>
      match st.host.fs_outcome (.remove_dirs path) with
      | some e => .err (.InterpreterError e) (st.logHost (.remove_dirs path))
      | none => .ok .Null (st.logHost (.remove_dirs path))
    | _ => .err (.TypeError "removedirs() requires string argument") st
  | _ => .err (.TypeError "removedirs() takes exactly 1 argument") st

/-- The names `OSLib::register_functions` leaves registered (source order;
`system` listed once — its two insertions share the key). -/
def osFunctionNames : List String :=
  ["makedirs", "system", "rename", "remove", "listdir", "chdir", "exists",
   "isfile", "isdir", "removedirs"]

/-- `OSLib::get_function`: the full registered table of os.rs. -/
def osGetFunction : String → Option LibFun
  | "makedirs" => some osMakedirs
  | "system" => some osSystem
  | "rename" => some osRename
  | "remove" => some osRemove
  | "listdir" => some osListdir
  | "chdir" => some osChdir
  | "exists" => some osExists
  | "isfile" => some osIsfile
  | "isdir" => some osIsdir
  | "removedirs" => some osRemovedirs
  | _ => none

/-- `SysLib::register_constants` (sys.rs:45-95), as a host-oracle table.
The compile-target constants mirror the source's `cfg!` chains through
`target_os`; `EXECUTABLE` is present only when `current_exe` succeeded.
`ARGV` and `PATH` are array-valued constants allocated once at
`SysLib::new()`; holding their handles would need per-import instance
state that the stateless name-keyed library model does not carry — they
are outside every claim and omitted from the modelled table. -/
def sysGetConstant (h : HostState) : String → Option Value
  | "PLATFORM" =>
    some (.String
      (if h.target_os = "windows" then "windows"
       else if h.target_os = "linux" then "linux"
       else if h.target_os = "macos" then "darwin"
       else "unknown"))
  | "EXECUTABLE" => h.executable.map Value.String
  | "VERSION" => some (.String h.version)
  | "PATH_SEP" => some (.String (if h.target_os = "windows" then "\\" else "/"))
  | "MAXSIZE" => some (.Number 2147483647)
  | "OS_NAME" => some (.String h.os_name)
  | "ARCH" => some (.String h.arch)
  | _ => none

/-- `OSLib::register_constants` (os.rs:42-52). -/
def osGetConstant (h : HostState) : String → Option Value
  | "name" => some (.String (if h.target_os = "windows" then "nt" else "posix"))
  | "linesep" => some (.String (if h.target_os = "windows" then "\r\n" else "\n"))
  | _ => none

/-- `Library::get_function` dispatch over the modelled library table. -/
def libGetFunction : String → String → Option LibFun
  | "std", fn => stdGetFunction fn
  | "math", fn => mathGetFunction fn
  | "sys", fn => sysGetFunction fn
  | "os", fn => osGetFunction fn
  | _, _ => none

/-- `Library::get_constant` dispatch (the std constant table is empty in
the source). -/
def libGetConstant (h : HostState) : String → String → Option Value
  | "math", item => mathGetConstant item
  | "sys", item => sysGetConstant h item
  | "os", item => osGetConstant h item
  | _, _ => none

/-! ## Imports (`Environment::import_library`, interpreter.rs:145-220) -/

/-- `load_external_library` resolves `<script dir>/<name>.tdx`. The claims
are settled for a script run with no sibling module files, so the load
fails exactly as interpreter.rs:205-207 does. -/
def loadExternalLibrary (name : String) : Error :=
  .FileNotFound ("External library '" ++ name ++ "' not found")

/-- The mode-specific body of `import_library`, after the `std` and
`has_library` guards. -/
def importAs (env : Environment) (name : String) (mode : String) :
    Except Error Environment :=
  if mode = "embedded" then
    if env.libraries.contains name then .ok env
    else
      match name with
      | "math" => .ok { env with libraries := name :: env.libraries }
      | "sys" => .ok { env with libraries := name :: env.libraries }
      | "os" => .ok { env with libraries := name :: env.libraries }
      | _ => .error (.InterpreterError "Embedded library not found")
  else if mode = "external" then
    if env.libraries.contains name then .ok env
    else .error (loadExternalLibrary name)
  else .error (.InterpreterError "Invalid import mode")

/-- `Environment::import_library`. The `None`-mode arm of the source calls
itself with `Some("embedded")` and falls back to `Some("external")`; the
recursive calls re-run the `std`/`has_library` guards on unchanged
arguments, so flattening them through `importAs` is exact. -/
def Environment.import_library (env : Environment) (name : String)
    (mode : Option String) : Except Error Environment :=
  if name = "std" then
    .error (.InterpreterError "Standard library is already loaded in global scope")
  else if env.has_library name then
    .error (.InterpreterError ("Library '" ++ name ++ "' is already imported"))
  else
    match mode with
    | some m => importAs env name m
    | none =>
      match importAs env name "embedded" with
      | .ok e => .ok e
      | .error _ => importAs env name "external"

/-! ## Pure evaluation helpers for `interpret_node` -/

/-- `Value::shallow_clone` (interpreter.rs:45-52): `Array` duplicates the
handle (`Arc::clone`), every other kind is `clone()`. In the address-based
model both are the identity — a handle copy copies the address, and a deep
clone of a value that contains no handle is the value itself (an `Arc`
nested inside a derived `clone()` also shares, which the identity captures
as well). -/
def Value.shallow_clone (v : Value) : Value := v

/-- `get_array_name` (interpreter.rs:341-347). -/
def get_array_name : ASTNode → Option String
  | .Identifier name => some name
  | _ => none

/-- `get_source_var_mutability` (interpreter.rs:1049-1056). -/
def get_source_var_mutability (expr : ASTNode) (env : Environment) :
    Option (String × Bool) :=
  match expr with
  | .Identifier name =>
    match env.get name with
    | some (_, m) => some (name, m)
    | none => none
  | _ => none

/-- `check_array_mutability` (interpreter.rs:1058-1067): `some e` is the
`Err(e)` early return. -/
def check_array_mutability (expr : ASTNode) (env : Environment)
    (target : String) : Option Error :=
  match get_source_var_mutability expr env with
  | some (_, false) =>
    some (.TypeError
      ("Cannot assign immutable array to mutable variable '" ++ target ++ "'"))
  | _ => none

/-- `full_name.starts_with("std.")`, kernel-computably. -/
def strStartsWithStd (s : String) : Bool :=
  s.data.take 4 == ['s', 't', 'd', '.']

/-- `&full_name[4..]`. -/
def stripStd (s : String) : String := String.mk (s.data.drop 4)

/-- `f64` remainder `l % r` (sign of the dividend), exactly on rationals. -/
def f64Mod (l r : ℚ) : ℚ := l - r * (ratTrunc (l / r) : ℚ)

/-- Result of the pure part of a binary operation. -/
inductive ValRes where
  | ok (v : Value)
  | err (e : Error)
  | abort (msg : String)

/-- Lift an `i32` division/remainder result. -/
def liftInt : Except String Int → ValRes
  | .ok n => .ok (.Number n)
  | .error m => .abort m

/-- The operand-pair table of the `BinaryOp` arm (interpreter.rs:493-615),
except the `(String, String)` pair, which the caller handles inline because
its `Multiply` arm re-evaluates the right operand node. -/
def applyBin : Value → Token → Value → ValRes
  | .Number l, op, .Number r =>
    match op with
    | .Plus => .ok (.Number (wrap32 (l + r)))
    | .Minus => .ok (.Number (wrap32 (l - r)))
    | .Multiply => .ok (.Number (wrap32 (l * r)))
    | .Divide => .ok (.Float ((l : ℚ) / (r : ℚ)))
    | .Equal => .ok (.Boolean (l == r))
    | .NotEqual => .ok (.Boolean (l != r))
    | .Greater => .ok (.Boolean (decide (l > r)))
    | .Less => .ok (.Boolean (decide (l < r)))
    | .GreaterEqual => .ok (.Boolean (decide (l ≥ r)))
    | .FloorDivide => liftInt (i32Div l r)
    | .LessEqual => .ok (.Boolean (decide (l ≤ r)))
    | .Modulus => liftInt (i32Mod l r)
    | .Power => .ok (.Number (i32Pow l (asU32 r)))
    | _ => .err (.UnsupportedOperation "Unsupported operator for numbers")
  | .Float l, op, .Float r =>
    match op with
    | .Plus => .ok (.Float (l + r))
    | .Minus => .ok (.Float (l - r))
    | .Multiply => .ok (.Float (l * r))
    | .Divide => .ok (.Float (l / r))
    | .Equal => .ok (.Boolean (l == r))
    | .NotEqual => .ok (.Boolean (l != r))
    | .Greater => .ok (.Boolean (decide (l > r)))
    | .Modulus => .ok (.Float (f64Mod l r))
    | .FloorDivide => .ok (.Number (satI32 (l / r).floor))
    | .Less => .ok (.Boolean (decide (l < r)))
    | .GreaterEqual => .ok (.Boolean (decide (l ≥ r)))
    | .LessEqual => .ok (.Boolean (decide (l ≤ r)))
    | .Power => .ok (.Float (f64Pow l r))
    | _ => .err (.UnsupportedOperation "Unsupported operator for floats")
  | .Number l0, op, .Float r =>
    let l : ℚ := (l0 : ℚ)
    match op with
    | .Plus => .ok (.Float (l + r))
    | .Minus => .ok (.Float (l - r))
    | .Multiply => .ok (.Float (l * r))
    | .Divide => .ok (.Float (l / r))
    | .Equal => .ok (.Boolean (l == r))
    | .Modulus => .ok (.Float (f64Mod l r))
    | .NotEqual => .ok (.Boolean (l != r))
    | .Greater => .ok (.Boolean (decide (l > r)))
    | .Less => .ok (.Boolean (decide (l < r)))
    | .GreaterEqual => .ok (.Boolean (decide (l ≥ r)))
    | .FloorDivide => .ok (.Number (satI32 (l / r).floor))
    | .Power => .ok (.Float (f64Pow l r))
    | .LessEqual => .ok (.Boolean (decide (l ≤ r)))
    | _ =>
      .err (.UnsupportedOperation "Unsupported operator for mixed number and float")
  | .Float l, op, .Number r0 =>
    let r : ℚ := (r0 : ℚ)
    match op with
    | .Plus => .ok (.Float (l + r))
    | .Minus => .ok (.Float (l - r))
    | .Multiply => .ok (.Float (l * r))
    | .Divide => .ok (.Float (l / r))
    | .Equal => .ok (.Boolean (l == r))
    | .Modulus => .ok (.Float (f64Mod l r))
    | .NotEqual => .ok (.Boolean (l != r))
    | .Greater => .ok (.Boolean (decide (l > r)))
    | .Less => .ok (.Boolean (decide (l < r)))
    | .GreaterEqual => .ok (.Boolean (decide (l ≥ r)))
    | .FloorDivide => .ok (.Number (satI32 (l / r).floor))
    | .Power => .ok (.Float (f64Pow l r))
    | .LessEqual => .ok (.Boolean (decide (l ≤ r)))
    | _ =>
      .err (.UnsupportedOperation "Unsupported operator for mixed float and number")
  | .String s, op, .Number n =>
    match op with
    | .Multiply =>
      match strRepeat s (asU64 n) with
      | some out => .ok (.String out)
      | none => .abort "capacity overflow"
    | _ =>
      .err (.UnsupportedOperation "Unsupported operation between string and number")
  | .Number n, op, .String s =>
    match op with
    | .Multiply =>
      match strRepeat s (asU64 n) with
      | some out => .ok (.String out)
      | none => .abort "capacity overflow"
    | _ =>
      .err (.UnsupportedOperation "Unsupported operation between number and string")
  | .Boolean b1, op, .Boolean b2 =>
    match op with
    | .Equal => .ok (.Boolean (b1 == b2))
    | .NotEqual => .ok (.Boolean (b1 != b2))
    | _ => .err (.UnsupportedOperation "Unsupported operator for booleans")
  | .TypeTag t1, op, .TypeTag t2 =>
    match op with
    | .Equal => .ok (.Boolean (t1 == t2))
    | .NotEqual => .ok (.Boolean (t1 != t2))
    | _ => .err (.UnsupportedOperation "Unsupported operator for types")
  | _, _, _ => .err (.UnsupportedOperation "Unsupported operation for given types")

/-- Lift a library call result into a step result under the caller's
environment. -/
def liftLib (r : LibRes) (env : Environment) : StepRes :=
  match r with
  | .ok v st => .ok v env st
  | .err e st => .err e env st
  | .abort m => .abort m
  | .exit c => .exit c

/-- Bind formal parameters to evaluated arguments, all mutable
(`params.iter().zip(args)`; the caller has checked equal lengths). -/
def bindParams : List String → List Value → Environment → Environment
  | [], _, env => env
  | _, [], env => env
  | p :: ps, v :: vs, env => bindParams ps vs (env.insert_var p v true)

/-- Result of arguments evaluation. -/
inductive ArgsRes where
  | ok (vs : List Value) (env : Environment) (st : RunState)
  | err (e : Error) (env : Environment) (st : RunState)
  | abort (msg : String)
  | exit (code : Int)
  | spin

/-- Loop-body completion tag. -/
inductive LoopTag where
  | brk | cont | norm

/-- Result of one pass over a loop body. -/
inductive LoopRes where
  | done (tag : LoopTag) (acc : Value) (env : Environment) (st : RunState)
  | err (e : Error) (env : Environment) (st : RunState)
  | abort (msg : String)
  | exit (code : Int)
  | spin

/-! ## `interpret_node` (interpreter.rs:360-1047)

The mutual block below is fueled: every recursive call decrements the step
budget, keeping the definitions structurally recursive (hence computable by
the kernel); `spin` is the fuel-exhausted outcome, which every theorem
avoids by supplying ample fuel. The `is_verbose` flag only adds log lines
in the source and is modelled as off. -/

mutual
def interpret_node : Nat → ASTNode → Environment → RunState → Bool → StepRes
  | 0, _, _, _, _ => .spin
  | fuel + 1, node, env, st, inLoop =>
    match node with
    | .Number n => .ok (.Number n) env st
    | .String s => .ok (.String s) env st
    | .Float q => .ok (.Float q) env st
    | .Boolean b => .ok (.Boolean b) env st
    | .Null => .ok .Null env st
    | .ImportLib name mode =>
      match env.import_library name mode with
      | .ok env1 => .ok .Null env1 st
      | .error e => .err e env st
    | .LibraryAccess lib item =>
      if env.libraries.contains lib then
        match libGetConstant st.host lib item with
        | some c => .ok c env st
        | none =>
          match libGetFunction lib item with
          | some _ => .ok (.Function (lib ++ "." ++ item) [] []) env st
          | none =>
            .err (.InterpreterError
              ("Item '" ++ item ++ "' not found in library '" ++ lib ++ "'")) env st
      else
        .err (.InterpreterError ("Library '" ++ lib ++ "' not found")) env st
    | .LibraryFunctionCall lib fn args =>
      match evalArgs fuel args [] env st inLoop with
      | .ok vs env1 st1 =>
        if env1.libraries.contains lib then
          match libGetFunction lib fn with
          | some f => liftLib (f vs st1) env1
          | none =>
            .err (.InterpreterError
              ("Function '" ++ fn ++ "' not found in library '" ++ lib ++ "'")) env1 st1
        else
          .err (.InterpreterError ("Library '" ++ lib ++ "' not found")) env1 st1
      | .err e env1 st1 => .err e env1 st1
      | .abort m => .abort m
      | .exit c => .exit c
      | .spin => .spin
    | .LenCall e =>
      match interpret_node fuel e env st inLoop with
      | .ok v env1 st1 =>
        match v with
        | .String s => .ok (.Number s.data.length) env1 st1
        | .Array a => .ok (.Number (st1.store.getD a []).length) env1 st1
        | _ => .err (.CannotGetLength (typeStr v) v) env1 st1
      | other => other
    | .DelCall e =>
      match e with
      | .Identifier name =>
        match env.scopes with
        | [] => .ok .Null env st
        | sc :: rest =>
          .ok .Null { env with scopes := scopeRemove sc name :: rest } st
      | _ => .err .DelRequiresVariableName env st
    | .Input prompt =>
      match interpret_node fuel prompt env st inLoop with
      | .ok v env1 st1 =>
        .ok (.String (trimModel (st1.stdin_lines.headD "")))
          env1
          { st1 with
            output := st1.output ++ dispVal (dispFuel st1.store) st1.store v
            stdin_lines := st1.stdin_lines.tail }
      | other => other
    | .FunctionDecl name params body =>
      .ok .Null (env.insert_function name (.Function name params body)) st
    | .BinaryOp lhs op rhs =>
      match interpret_node fuel lhs env st inLoop with
      | .ok lv env1 st1 =>
        match op with
        | .And =>
          match lv with
          | .Boolean false => .ok (.Boolean false) env1 st1
          | _ =>
            match interpret_node fuel rhs env1 st1 inLoop with
            | .ok rv env2 st2 =>
              match lv, rv with
              | .Boolean l, .Boolean r => .ok (.Boolean (l && r)) env2 st2
              | _, _ =>
                .err (.TypeError "AND operator can only be applied to boolean values")
                  env2 st2
            | other => other
        | .Or =>
          match lv with
          | .Boolean true => .ok (.Boolean true) env1 st1
          | _ =>
            match interpret_node fuel rhs env1 st1 inLoop with
            | .ok rv env2 st2 =>
              match lv, rv with
              | .Boolean l, .Boolean r => .ok (.Boolean (l || r)) env2 st2
              | _, _ =>
                .err (.TypeError "OR operator can only be applied to boolean values")
                  env2 st2
            | other => other
        | _ =>
          match interpret_node fuel rhs env1 st1 inLoop with
          | .ok rv env2 st2 =>
            match lv, rv with
            | .String s, .String t =>
              match op with
              | .Plus => .ok (.String (s ++ t)) env2 st2
              | .Multiply =>
                match interpret_node fuel rhs env2 st2 inLoop with
                | .ok (.Number n) env3 st3 =>
                  match strRepeat s (asU64 n) with
                  | some out => .ok (.String out) env3 st3
                  | none => .abort "capacity overflow"
                | .ok _ env3 st3 =>
                  .err (.TypeError "String can only be multiplied by an integer")
                    env3 st3
                | other => other
              | .Equal => .ok (.Boolean (s == t)) env2 st2
              | .NotEqual => .ok (.Boolean (s != t)) env2 st2
              | .Greater => .ok (.Boolean (decide (t < s))) env2 st2
              | .Less => .ok (.Boolean (decide (s < t))) env2 st2
              | .GreaterEqual => .ok (.Boolean (decide (t ≤ s))) env2 st2
              | .LessEqual => .ok (.Boolean (decide (s ≤ t))) env2 st2
              | _ =>
                .err (.UnsupportedOperation "Unsupported operator for strings")
                  env2 st2
            | _, _ =>
              match applyBin lv op rv with
              | .ok v => .ok v env2 st2
              | .err e => .err e env2 st2
              | .abort m => .abort m
          | other => other
      | other => other
    | .Array elems =>
      match evalArgs fuel elems [] env st inLoop with
      | .ok vs env1 st1 =>
        .ok (.Array st1.store.length) env1 { st1 with store := st1.store ++ [vs] }
      | .err e env1 st1 => .err e env1 st1
      | .abort m => .abort m
      | .exit c => .exit c
      | .spin => .spin
    | .Index e ie =>
      match interpret_node fuel e env st inLoop with
      | .ok av env1 st1 =>
        match interpret_node fuel ie env1 st1 inLoop with
        | .ok iv env2 st2 =>
          match av, iv with
          | .Array a, .Number i =>
            if i < 0 ∨ ((st2.store.getD a []).length : Int) ≤ i then
              .err (.IndexOutOfBounds "Index out of bounds") env2 st2
            else
              .ok ((st2.store.getD a []).getD i.toNat .Null) env2 st2
          | .String s, .Number i =>
            if i < 0 ∨ (s.utf8ByteSize : Int) ≤ i then
              .err (.IndexOutOfBounds "Index out of bounds") env2 st2
            else
              match s.data.get? i.toNat with
              | some c => .ok (.String (String.mk [c])) env2 st2
              | none => .abort "called `Option::unwrap()` on a `None` value"
          | _, _ => .err (.TypeError "Invalid indexing operation") env2 st2
        | other => other
      | other => other
    | .FunctionCall name args =>
      match evalArgs fuel args [] env st inLoop with
      | .ok vs env1 st1 =>
        match funsGet env1.functions name with
        | some (.Function fullName params body) =>
          if strStartsWithStd fullName then
            if env1.libraries.contains "std" then
              match stdGetFunction (stripStd fullName) with
              | some f =>
                match f vs st1 with
                | .ok result st2 =>
                  if stripStd fullName = "insert" ∨ stripStd fullName = "sort" ∨
                      stripStd fullName = "reverse" ∨ stripStd fullName = "clear" then
                    match args with
                    | a0 :: _ =>
                      match get_array_name a0 with
                      | some array_name =>
                        match env1.get array_name with
                        | some (_, is_mutable) =>
                          if is_mutable then
                            match result with
                            | .Array _ =>
                              .ok .Null (env1.setVar array_name result) st2
                            | _ => .ok .Null env1 st2
                          else
                            .err (.TypeError
                              ("Cannot modify immutable array '" ++ array_name ++ "'"))
                              env1 st2
                        | none => .ok result env1 st2
                      | none => .ok result env1 st2
                    | [] =>
                      .abort "index out of bounds: the len is 0 but the index is 0"
                  else .ok result env1 st2
                | .err e st2 => .err e env1 st2
                | .abort m => .abort m
                | .exit c => .exit c
              | none => userCall fuel name params body vs env1 st1 inLoop
            else userCall fuel name params body vs env1 st1 inLoop
          else userCall fuel name params body vs env1 st1 inLoop
        | _ =>
          .err (.InterpreterError
            ("Function '" ++ name ++ "' must be called with library prefix (e.g. std." ++
              name ++ ")")) env1 st1
      | .err e env1 st1 => .err e env1 st1
      | .abort m => .abort m
      | .exit c => .exit c
      | .spin => .spin
    | .Return e =>
      if !env.in_function then .err .ReturnOutsideFunction env st
      else
        match e with
        | some ex =>
          match interpret_node fuel ex env st inLoop with
          | .ok v env1 st1 => .ok (.ReturnValue v) env1 st1
          | other => other
        | none => .ok (.ReturnValue .Null) env st
    | .Print e =>
      match interpret_node fuel e env st inLoop with
      | .ok v env1 st1 =>
        .ok .Null env1
          { st1 with
            output := st1.output ++ dispVal (dispFuel st1.store) st1.store v ++ "\n" }
      | other => other
    | .UnaryOp op e =>
      match interpret_node fuel e env st inLoop with
      | .ok v env1 st1 =>
        match op, v with
        | .Not, .Boolean b => .ok (.Boolean !b) env1 st1
        | _, _ => .err (.UnsupportedOperation "Unsupported unary operation") env1 st1
      | other => other
    | .While cond body =>
      match whileLoop fuel cond body .Null env.push_scope st with
      | .ok v env1 st1 => .ok v env1.pop_scope st1
      | other => other
    | .Var name init is_mutable =>
      if is_mutable then
        match init with
        | some ex =>
          match interpret_node fuel ex env st inLoop with
          | .ok v env1 st1 =>
            match v with
            | .Array _ =>
              match check_array_mutability ex env1 name with
              | some er => .err er env1 st1
              | none =>
                .ok .Null (env1.insert_var name v.shallow_clone is_mutable) st1
            | _ => .ok .Null (env1.insert_var name v.shallow_clone is_mutable) st1
          | other => other
        | none => .ok .Null (env.insert_var name .Null is_mutable) st
      else
        match init with
        | some ex =>
          match interpret_node fuel ex env st inLoop with
          | .ok v env1 st1 =>
            .ok .Null (env1.insert_var name v.shallow_clone is_mutable) st1
          | other => other
        | none => .ok .Null (env.insert_var name .Null is_mutable) st
    | .Assign name e =>
      match env.get name with
      | some (_, is_mutable) =>
        if !is_mutable then
          .err (.TypeError ("Cannot assign to immutable variable: " ++ name)) env st
        else
          match interpret_node fuel e env st inLoop with
          | .ok v env1 st1 =>
            match v with
            | .Array _ =>
              match check_array_mutability e env1 name with
              | some er => .err er env1 st1
              | none => .ok .Null (env1.setVar name v.shallow_clone) st1
            | _ => .ok .Null (env1.setVar name v.shallow_clone) st1
          | other => other
      | none =>
        .err (.VariableNotDeclared ("Variable not declared: " ++ name)) env st
    | .IndexAssign arrNode idxNode valNode =>
      match arrNode with
      | .Identifier array_name =>
        match interpret_node fuel idxNode env st inLoop with
        | .ok idxV env1 st1 =>
          match interpret_node fuel valNode env1 st1 inLoop with
          | .ok valV env2 st2 =>
            match idxV with
            | .Number index =>
              match env2.get array_name with
              | some (.Array a, is_mutable) =>
                if !is_mutable then
                  .err (.TypeError
                    ("Cannot assign to immutable array '" ++ array_name ++ "'"))
                    env2 st2
                else if (st2.store.getD a []).length ≤ asU64 index then
                  .err (.IndexOutOfBounds
                    ("Index out of bounds for array '" ++ array_name ++ "'"))
                    env2 st2
                else
                  .ok .Null env2
                    { st2 with
                      store := st2.store.set a
                        ((st2.store.getD a []).set (asU64 index) valV) }
              | _ =>
                .err (.TypeError
                  ("Array '" ++ array_name ++ "' not found or is not mutable"))
                  env2 st2
            | _ =>
              .err (.TypeError "Expected integer index in array assignment") env2 st2
          | other => other
        | other => other
      | _ =>
        .err (.TypeError "Expected array identifier in index assignment") env st
    | .Identifier name =>
      match env.get name with
      | some (v, _) => .ok v env st
      | none =>
        .err (.VariableNotDeclared ("Variable not found: " ++ name)) env st
    | .TypeLiteral t => .ok (.TypeTag t) env st
    | .TypeOf e =>
      match interpret_node fuel e env st inLoop with
      | .ok v env1 st1 => .ok (.TypeTag (typeStr v)) env1 st1
      | other => other
    | .TypeCast tn e =>
      match interpret_node fuel e env st inLoop with
      | .ok v env1 st1 =>
        match tn with
        | "int" =>
          match v with
          | .Number n => .ok (.Number n) env1 st1
          | .Float f => .ok (.Number (satI32 (ratTrunc f))) env1 st1
          | .String s =>
            if s.data.all (·.isDigit) then
              match parseI32AllDigits s with
              | some n => .ok (.Number n) env1 st1
              | none => .abort "called `Result::unwrap()` on an `Err` value"
            else
              .err (.TypeError ("Cannot convert string '" ++ s ++ "' to int"))
                env1 st1
          | .Boolean b => .ok (.Number (if b then 1 else 0)) env1 st1
          | _ => .err (.TypeError "Cannot convert to int") env1 st1
        | "str" =>
          match v with
          | .Number n => .ok (.String (toString n)) env1 st1
          | .Float f => .ok (.String (dispFloat f)) env1 st1
          | .String s => .ok (.String s) env1 st1
          | .Boolean b => .ok (.String (if b then "true" else "false")) env1 st1
          | .Null => .ok (.String "null") env1 st1
          | _ => .err (.TypeError "Cannot convert to string") env1 st1
        | "float" =>
          match v with
          | .Number n => .ok (.Float (n : ℚ)) env1 st1
          | .Float f => .ok (.Float f) env1 st1
          | .String s =>
            match parseF64Model s with
            | some f => .ok (.Float f) env1 st1
            | none =>
              .err (.TypeError ("Cannot convert string '" ++ s ++ "' to float"))
                env1 st1
          | .Boolean b => .ok (.Float (if b then 1 else 0)) env1 st1
          | _ => .err (.TypeError "Cannot convert to float") env1 st1
        | "bool" =>
          match v with
          | .Number n => .ok (.Boolean (n != 0)) env1 st1
          | .Float f => .ok (.Boolean (f != 0)) env1 st1
          | .String s => .ok (.Boolean (!(s == ""))) env1 st1
          | .Boolean b => .ok (.Boolean b) env1 st1
          | .Null => .ok (.Boolean false) env1 st1
          | _ => .err (.TypeError "Cannot convert to bool") env1 st1
        | _ => .err (.TypeError ("Unknown type cast: " ++ tn)) env1 st1
      | other => other
    | .If cond thenB elifs elseB =>
      match interpret_node fuel cond env st inLoop with
      | .ok (.Boolean true) env1 st1 => runIfBlock fuel thenB env1 st1 inLoop
      | .ok _ env1 st1 => elifChain fuel elifs elseB env1 st1 inLoop
      | other => other
    | .For init cond update body =>
      match interpret_node fuel init env.push_scope st true with
      | .ok _ env1 st1 =>
        match forLoop fuel cond update body .Null env1 st1 with
        | .ok v env2 st2 => .ok v env2.pop_scope st2
        | other => other
      | other => other
    | .Break =>
      if !inLoop then .err .BreakOutsideLoop env st else .ok .Break env st
    | .Continue =>
      if !inLoop then .err .ContinueOutsideLoop env st else .ok .Continue env st

/-- The argument/element evaluation loops (interpreter.rs:396-402, 620-624,
651-658). -/
def evalArgs : Nat → List ASTNode → List Value → Environment → RunState →
    Bool → ArgsRes
  | 0, _, _, _, _, _ => .spin
  | _ + 1, [], acc, env, st, _ => .ok acc env st
  | fuel + 1, a :: rest, acc, env, st, inLoop =>
    match interpret_node fuel a env st inLoop with
    | .ok v env1 st1 => evalArgs fuel rest (acc ++ [v]) env1 st1 inLoop
    | .err e env1 st1 => .err e env1 st1
    | .abort m => .abort m
    | .exit c => .exit c
    | .spin => .spin

/-- The statement loop of an `If`/elif/else branch (interpreter.rs:956-961,
967-972, 979-984): only `Break`/`Continue` escape; every other statement
value — a `ReturnValue` included — is dropped, and the completed block
yields `Null` (the arm's final `Ok(Value::Null)`). -/
def runIfBlock : Nat → List ASTNode → Environment → RunState → Bool → StepRes
  | 0, _, _, _, _ => .spin
  | _ + 1, [], env, st, _ => .ok .Null env st
  | fuel + 1, stmt :: rest, env, st, inLoop =>
    match interpret_node fuel stmt env st inLoop with
    | .ok .Break env1 st1 => .ok .Break env1 st1
    | .ok .Continue env1 st1 => .ok .Continue env1 st1
    | .ok _ env1 st1 => runIfBlock fuel rest env1 st1 inLoop
    | other => other

/-- The elif/else selection loop (interpreter.rs:963-986). -/
def elifChain : Nat → List (ASTNode × List ASTNode) → Option (List ASTNode) →
    Environment → RunState → Bool → StepRes
  | 0, _, _, _, _, _ => .spin
  | fuel + 1, [], els, env, st, inLoop =>
    match els with
    | some stmts => runIfBlock fuel stmts env st inLoop
    | none => .ok .Null env st
  | fuel + 1, (c, stmts) :: rest, els, env, st, inLoop =>
    match interpret_node fuel c env st inLoop with
    | .ok (.Boolean true) env1 st1 => runIfBlock fuel stmts env1 st1 inLoop
    | .ok _ env1 st1 => elifChain fuel rest els env1 st1 inLoop
    | other => other

/-- The function-body statement loop (interpreter.rs:721-727 and 273-279):
a `ReturnValue` stops the body and unwraps; otherwise the last statement's
value accumulates. -/
def runFnBody : Nat → List ASTNode → Value → Environment → RunState → Bool →
    StepRes
  | 0, _, _, _, _, _ => .spin
  | _ + 1, [], acc, env, st, _ => .ok acc env st
  | fuel + 1, stmt :: rest, acc, env, st, inLoop =>
    match interpret_node fuel stmt env st inLoop with
    | .ok (.ReturnValue v) env1 st1 => .ok v env1 st1
    | .ok v env1 st1 => runFnBody fuel rest v env1 st1 inLoop
    | other => other

/-- One pass over a loop body (interpreter.rs:778-788, 1002-1012):
`Break`/`Continue` stop the pass with the accumulated result; other values
become the accumulated result. -/
def loopBody : Nat → List ASTNode → Value → Environment → RunState → LoopRes
  | 0, _, _, _, _ => .spin
  | _ + 1, [], acc, env, st => .done .norm acc env st
  | fuel + 1, stmt :: rest, acc, env, st =>
    match interpret_node fuel stmt env st true with
    | .ok .Break env1 st1 => .done .brk acc env1 st1
    | .ok .Continue env1 st1 => .done .cont acc env1 st1
    | .ok v env1 st1 => loopBody fuel rest v env1 st1
    | .err e env1 st1 => .err e env1 st1
    | .abort m => .abort m
    | .exit c => .exit c
    | .spin => .spin

/-- The `'outer` loop of the `While` arm (interpreter.rs:772-789): the loop
ends only when the condition evaluates to `Boolean(false)`; `Break` ends it
with the accumulated result; `Continue` and normal completion re-test the
condition. -/
def whileLoop : Nat → ASTNode → List ASTNode → Value → Environment →
    RunState → StepRes
  | 0, _, _, _, _, _ => .spin
  | fuel + 1, cond, body, acc, env, st =>
    match interpret_node fuel cond env st true with
    | .ok condV env1 st1 =>
      match condV with
      | .Boolean false => .ok acc env1 st1
      | _ =>
        match loopBody fuel body acc env1 st1 with
        | .done .brk acc2 env2 st2 => .ok acc2 env2 st2
        | .done _ acc2 env2 st2 => whileLoop fuel cond body acc2 env2 st2
        | .err e env2 st2 => .err e env2 st2
        | .abort m => .abort m
        | .exit c => .exit c
        | .spin => .spin
    | other => other

/-- The `'outer` loop of the `For` arm (interpreter.rs:996-1015). Note that
`Continue` jumps to the condition *without* running the update statement,
exactly as the source's `continue 'outer` does. -/
def forLoop : Nat → ASTNode → ASTNode → List ASTNode → Value → Environment →
    RunState → StepRes
  | 0, _, _, _, _, _, _ => .spin
  | fuel + 1, cond, update, body, acc, env, st =>
    match interpret_node fuel cond env st true with
    | .ok condV env1 st1 =>
      match condV with
      | .Boolean false => .ok acc env1 st1
      | _ =>
        match loopBody fuel body acc env1 st1 with
        | .done .brk acc2 env2 st2 => .ok acc2 env2 st2
        | .done .cont acc2 env2 st2 => forLoop fuel cond update body acc2 env2 st2
        | .done .norm acc2 env2 st2 =>
          match interpret_node fuel update env2 st2 true with
          | .ok _ env3 st3 => forLoop fuel cond update body acc2 env3 st3
          | other => other
        | .err e env2 st2 => .err e env2 st2
        | .abort m => .abort m
        | .exit c => .exit c
        | .spin => .spin
    | other => other

/-- The user-function call path (interpreter.rs:692-734): a fresh
`Environment::new` with `in_function` set, a parent snapshot holding a copy
of the caller's function table (which no lookup below ever consults), and
`box_clone`s of the caller's libraries (stateless here, so a name copy);
then the arity check, parameter binding, and the body loop. The caller's
environment is untouched by the call. -/
def userCall : Nat → String → List String → List ASTNode → List Value →
    Environment → RunState → Bool → StepRes
  | 0, _, _, _, _, _, _, _ => .spin
  | fuel + 1, name, params, body, vs, env, st, inLoop =>
    let funcEnv : Environment :=
      { Environment.new with
        in_function := true
        parent := some
          { scopes := [[]]
            functions := env.functions
            in_function := true
            libraries := [] }
        libraries := env.libraries }
    if params.length ≠ vs.length then
      .err (.InvalidFunctionArguments name params.length vs.length) env st
    else
      match runFnBody fuel body .Null (bindParams params vs funcEnv) st inLoop with
      | .ok v _ st2 => .ok v env st2
      | .err e _ st2 => .err e env st2
      | .abort m => .abort m
      | .exit c => .exit c
      | .spin => .spin
end

/-- Result of running a whole program (`interpret`, interpreter.rs:349-358:
`Ok(None)` for the empty program, else the last statement's value). -/
inductive ProgRes where
  | ok (v : Option Value) (env : Environment) (st : RunState)
  | err (e : Error) (env : Environment) (st : RunState)
  | abort (msg : String)
  | exit (code : Int)
  | spin

/-- The top-level statement loop of `interpret`. -/
def interpretNodes : Nat → List ASTNode → Option Value → Environment →
    RunState → ProgRes
  | 0, _, _, _, _ => .spin
  | _ + 1, [], acc, env, st => .ok acc env st
  | fuel + 1, node :: rest, acc, env, st =>
    match interpret_node fuel node env st false with
    | .ok v env1 st1 => interpretNodes fuel rest (some v) env1 st1
    | .err e env1 st1 => .err e env1 st1
    | .abort m => .abort m
    | .exit c => .exit c
    | .spin => .spin

/-- `interpret` (interpreter.rs:349-358): a fresh global environment, then
the statements in order, stopping at the first error. -/
def interpret (fuel : Nat) (ast : List ASTNode) (st : RunState) : ProgRes :=
  interpretNodes fuel ast none Environment.new st

/-- A minimal host at startup: no environment variables, pid 1, root as the
working directory, an empty-looking file system, every command exiting 0.
The concrete values are an arbitrary but fixed host instantiation; theorems
that depend on a host answer quantify over `HostState` instead of reading
these. (`sizeof_value` is the compiler-determined `size_of::<Value>()`,
unknowable from source text — oracle only.) -/
def host0 : HostState :=
  { env_vars := []
    pid := 1
    cwd := .ok "/"
    canonical := fun _ => none
    load_avg := none
    sizeof_value := 48
    fs_exists := fun _ => false
    fs_is_file := fun _ => false
    fs_is_dir := fun _ => false
    fs_listdir := fun _ => .error "No such file or directory (os error 2)"
    fs_outcome := fun _ => none
    cmd_result := fun _ => .ok 0
    target_os := "linux"
    os_name := "linux"
    arch := "x86_64"
    version := "0.0.0"
    executable := none
    log := [] }

/-- The world at startup: empty store, no output, no pending input, the
minimal host. -/
def st0 : RunState :=
  { store := [], output := "", stdin_lines := [], host := host0 }

/-! ## Claim programs and auxiliary notions -/

/-- The body of the spec's factorial function
`func f(n){ if(n<=1){return 1;} return n*f(n-1); }`. -/
def factBody : List ASTNode :=
  [ .If (.BinaryOp (.Identifier "n") .LessEqual (.Number 1))
      [ .Return (some (.Number 1)) ] [] none
  , .Return (some (.BinaryOp (.Identifier "n") .Multiply
      (.FunctionCall "f" [ .BinaryOp (.Identifier "n") .Minus (.Number 1) ]))) ]

/-- Declare `f` and call `f(5)`. -/
def factProg : List ASTNode :=
  [ .FunctionDecl "f" ["n"] factBody
  , .FunctionCall "f" [ .Number 5 ] ]

/-- The global environment after the declaration of `f`. -/
def envAfterFactDecl : Environment :=
  { Environment.new with
    functions := ("f", .Function "f" ["n"] factBody) :: Environment.new.functions }

/-- A non-recursive function whose `return 1` sits inside an if-branch,
followed by `return 2`:
`func g(){ if(true){return 1;} return 2; } g()`. -/
def swallowProg : List ASTNode :=
  [ .FunctionDecl "g" []
      [ .If (.Boolean true) [ .Return (some (.Number 1)) ] [] none
      , .Return (some (.Number 2)) ]
  , .FunctionCall "g" [] ]

/-- The global environment after the declaration of `g`. -/
def envAfterSwallowDecl : Environment :=
  { Environment.new with
    functions :=
      ("g", .Function "g" []
        [ .If (.Boolean true) [ .Return (some (.Number 1)) ] [] none
        , .Return (some (.Number 2)) ]) :: Environment.new.functions }

/-- Two top-level functions, `h` calling `g`:
`func g(){ return 1; } func h(){ return g(); } h()`. -/
def mutualProg : List ASTNode :=
  [ .FunctionDecl "g" [] [ .Return (some (.Number 1)) ]
  , .FunctionDecl "h" [] [ .Return (some (.FunctionCall "g" [])) ]
  , .FunctionCall "h" [] ]

/-- The global environment after the two declarations of `mutualProg`. -/
def envAfterMutualDecls : Environment :=
  { Environment.new with
    functions :=
      ("h", .Function "h" [] [ .Return (some (.FunctionCall "g" [])) ]) ::
      ("g", .Function "g" [] [ .Return (some (.Number 1)) ]) ::
      Environment.new.functions }

/-- A caller environment that *does* hold `g` in its function table. -/
def envWithG : Environment :=
  Environment.new.insert_function "g" (.Function "g" [] [ .Return (some (.Number 1)) ])

/-- The program of claim C9: `f` prints and returns a string, and its call
is the right operand of a string multiplication:
`func f(){ print("hi"); return "ab"; } var y = "x" * f();`. -/
def strMulProg : List ASTNode :=
  [ .FunctionDecl "f" [] [ .Print (.String "hi"), .Return (some (.String "ab")) ]
  , .Var "y" (some (.BinaryOp (.String "x") .Multiply (.FunctionCall "f" []))) true ]

/-- The global environment after the declaration of `strMulProg`'s `f`. -/
def envAfterStrMulDecl : Environment :=
  { Environment.new with
    functions :=
      ("f", .Function "f" [] [ .Print (.String "hi"), .Return (some (.String "ab")) ]) ::
      Environment.new.functions }

/-- `var x = 0; while (0) { x = 1; break; } x` — the loop condition is the
Number `0`, not a Boolean. -/
def whileNumProg : List ASTNode :=
  [ .Var "x" (some (.Number 0)) true
  , .While (.Number 0) [ .Assign "x" (.Number 1), .Break ]
  , .Identifier "x" ]

/-- `var x = 0; for (var i = 0; "s"; i = 1) { x = 1; break; } x` — the loop
condition is a String. -/
def forStrProg : List ASTNode :=
  [ .Var "x" (some (.Number 0)) true
  , .For (.Var "i" (some (.Number 0)) true) (.String "s") (.Assign "i" (.Number 1))
      [ .Assign "x" (.Number 1), .Break ]
  , .Identifier "x" ]

/-- `var x = 0; while (false) { x = 1; } x` — a Boolean-false condition ends
the loop at once. -/
def whileFalseProg : List ASTNode :=
  [ .Var "x" (some (.Number 0)) true
  , .While (.Boolean false) [ .Assign "x" (.Number 1) ]
  , .Identifier "x" ]

/-- The store addresses a value refers to (an `Array` holds its handle;
`ReturnValue` wraps; every other kind holds none). -/
def valRefs : Value → List Nat
  | .Array a => [a]
  | .ReturnValue v => valRefs v
  | _ => []

/-- Is this value an array handle? -/
def Value.isHandle : Value → Bool
  | .Array _ => true
  | _ => false

/-- Is this value the `ReturnValue` control-flow sentinel? (It is unwrapped
at every function-call boundary and is rejected at top level, so it never
reaches a binding copy.) -/
def Value.isReturnSentinel : Value → Bool
  | .ReturnValue _ => true
  | _ => false

/-- The single-scope environment of the aliasing claims: `a` bound to the
handle of store row 0, `b` and `c` ordinary mutable bindings. -/
def aliasEnv (v0 w : Value) : Environment :=
  { Environment.new with
    scopes := [[("a", .Array 0, true), ("b", v0, true), ("c", w, true)]] }

/-- A world whose store holds the single row `xs`. -/
def oneRowSt (xs : List Value) : RunState := { st0 with store := [xs] }

/-- The single-binding environment of the C8 scenarios: `a` bound to the
handle of store row 0 with the given mutability. -/
def c8Env (m : Bool) : Environment :=
  { Environment.new with scopes := [[("a", .Array 0, m)]] }

/-- The global environment after declaring `func r1(){ return 42; }`. -/
def envAfterR1 : Environment :=
  { Environment.new with
    functions :=
      ("r1", .Function "r1" [] [ .Return (some (.Number 42)) ]) ::
      Environment.new.functions }

/-- The global environment after a successful embedded import of `math`. -/
def mathEnv : Environment :=
  { Environment.new with libraries := ["math", "std"] }

/-- The global environment after a successful embedded import of `sys`. -/
def sysEnv : Environment :=
  { Environment.new with libraries := ["sys", "std"] }

/-- The global environment after a successful embedded import of `os`. -/
def osEnv : Environment :=
  { Environment.new with libraries := ["os", "std"] }

/-! # The claims -/

/-- C1: the claim says a `ReturnValue(v)` produced by a body statement —
also from inside an if/elif/else branch — stops the body with result `v`,
and that the spec's factorial satisfies `f(5) == 120`. The code disagrees
twice: the `If` arm (interpreter.rs:949-988) early-returns only
`Break`/`Continue` and silently drops a `ReturnValue` produced inside a
branch (so `func g(){ if(true){return 1;} return 2; }` returns `2`), and
the recursive call `f(n-1)` is resolved against the fresh call
environment's function table, which holds only the `std.` placeholders —
the caller's table was copied into the `parent` snapshot that no function
lookup reads — so `f(5)` fails with an `InterpreterError` instead of
producing `120`. -/
theorem C1_factorial_and_if_return :
    interpret 99 factProg st0 =
      .err (.InterpreterError
        "Function 'f' must be called with library prefix (e.g. std.f)")
        envAfterFactDecl st0 ∧
    interpret 99 swallowProg st0 = .ok (some (.Number 2)) envAfterSwallowDecl st0 :=
  ⟨rfl, rfl⟩

/-- C2: the claim says the fresh call environment's function table is a
snapshot copy of the caller's, so that mutual recursion among top-level
functions resolves. In the code the snapshot goes into the `parent` field
(interpreter.rs:697-703), but `ASTNode::FunctionCall` resolution reads only
`env.functions` (interpreter.rs:660, 692), which `Environment::new` fills
with the `std.` placeholders alone — so a nested call to a top-level
function fails with function-not-found: `func g(){return 1;} func
h(){return g();} h()` errors, and even a direct `userCall` whose caller
table holds `g` cannot reach it. -/
theorem C2_call_env_function_table :
    interpret 99 mutualProg st0 =
      .err (.InterpreterError
        "Function 'g' must be called with library prefix (e.g. std.g)")
        envAfterMutualDecls st0 ∧
    userCall 99 "h" [] [ .Return (some (.FunctionCall "g" [])) ] [] envWithG st0 false =
      .err (.InterpreterError
        "Function 'g' must be called with library prefix (e.g. std.g)")
        envWithG st0 :=
  ⟨rfl, rfl⟩

/-- C4: the claim says evaluation always yields a `Value` or a structured
`Error` and never aborts the process — naming `int("")`, out-of-`i32`-range
digit strings, and indexing a multi-byte string. On exactly those inputs
the code panics: the `int` cast `unwrap`s `s.parse::<i32>()` after a
digits-only check that accepts `""` and `"2147483648"` (interpreter.rs:910),
and string indexing bounds-checks against the *byte* length but `unwrap`s
`chars().nth(i)` (interpreter.rs:639-642), which is `None` for `"é"[1]`. -/
theorem C4_evaluator_panics :
    interpret_node 9 (.TypeCast "int" (.String "")) Environment.new st0 false =
      .abort "called `Result::unwrap()` on an `Err` value" ∧
    interpret_node 9 (.TypeCast "int" (.String "2147483648")) Environment.new st0 false =
      .abort "called `Result::unwrap()` on an `Err` value" ∧
    interpret_node 9 (.Index (.String "é") (.Number 1)) Environment.new st0 false =
      .abort "called `Option::unwrap()` on a `None` value" :=
  ⟨rfl, rfl, rfl⟩

/-- C5 counterexample: the claim calls `x // y` "the integer floor-division
result", but the code divides with Rust `i32` division, which truncates
toward zero: `-7 // 2` evaluates to `-3`, while floor division gives `-4`. -/
theorem C5_counterexample :
    interpret_node 2 (.BinaryOp (.Number (-7)) .FloorDivide (.Number 2))
        Environment.new st0 false =
      .ok (.Number (-3)) Environment.new st0 ∧
    Int.fdiv (-7) 2 = -4 ∧ ¬ ((-3 : Int) = (-4 : Int)) :=
  ⟨rfl, by decide, by decide⟩

/-- C5 amended: for `i32` operands with `y ≠ 0` and `(x, y) ≠ (i32::MIN, -1)`
(where Rust division panics), `x // y` is a `Number` holding the quotient
truncated toward zero, and `x / y` is a `Float` holding the true quotient —
also when `y` divides `x`. -/
theorem C5_amended (x y : Int) (env : Environment) (st : RunState)
    (inLoop : Bool)
    (hx1 : -2147483648 ≤ x) (hx2 : x ≤ 2147483647)
    (hy1 : -2147483648 ≤ y) (hy2 : y ≤ 2147483647)
    (hy : y ≠ 0) (hmin : ¬(x = -2147483648 ∧ y = -1)) :
    interpret_node 2 (.BinaryOp (.Number x) .FloorDivide (.Number y)) env st inLoop =
      .ok (.Number (Int.tdiv x y)) env st ∧
    interpret_node 2 (.BinaryOp (.Number x) .Divide (.Number y)) env st inLoop =
      .ok (.Float ((x : ℚ) / (y : ℚ))) env st := by
  constructor
  · simp [interpret_node, applyBin, liftInt, i32Div, hy, hmin]
  · simp [interpret_node, applyBin]

/-- C5 amended, witnessed at `x = 7, y = 2` (and the divisible pair is the
`Float` in the second conjunct at `6 / 3`, covered by the theorem applied
at `x = 6, y = 3` in the conjunct below). -/
theorem C5_amended_witness :
    (interpret_node 2 (.BinaryOp (.Number 7) .FloorDivide (.Number 2))
        Environment.new st0 false =
      .ok (.Number (Int.tdiv 7 2)) Environment.new st0) ∧
    (interpret_node 2 (.BinaryOp (.Number 6) .Divide (.Number 3))
        Environment.new st0 false =
      .ok (.Float ((6 : ℚ) / (3 : ℚ))) Environment.new st0) :=
  ⟨(C5_amended 7 2 Environment.new st0 false (by decide) (by decide) (by decide)
      (by decide) (by decide) (by decide)).1,
   (C5_amended 6 3 Environment.new st0 false (by decide) (by decide) (by decide)
      (by decide) (by decide) (by decide)).2⟩

/-- C6 counterexample: the claim includes `io` and `mem` among the
embedded-importable libraries, but `import_library`'s embedded arm matches
only `math`, `sys`, `os` (interpreter.rs:156-171) — `io`/`mem` fail with
`InterpreterError` in embedded mode, and in no-mode form fall back to the
(absent) external file. -/
theorem C6_counterexample :
    Environment.new.import_library "io" (some "embedded") =
      .error (.InterpreterError "Embedded library not found") ∧
    Environment.new.import_library "mem" (some "embedded") =
      .error (.InterpreterError "Embedded library not found") ∧
    Environment.new.import_library "io" none =
      .error (.FileNotFound "External library 'io' not found") ∧
    Environment.new.import_library "mem" none =
      .error (.FileNotFound "External library 'mem' not found") :=
  ⟨rfl, rfl, rfl, rfl⟩

/-- C6 amended: the embedded set is `math`, `sys`, `os`: for each of these,
`import name, "embedded"` — and `import name` with no mode, given no
sibling file — succeeds and registers the library, after which every
function its source registers is reachable through `name.fn(...)` dispatch
(the three `all`-conjuncts range over the full registered tables), and the
calls return the library's results: `math.sqrt(16)` is the Float `4`,
`sys.getpid()` is the host's pid, `os.exists(path)` is the host's answer —
for every host. `io` and `mem` are rejected with `InterpreterError`. -/
theorem C6_amended :
    Environment.new.import_library "math" (some "embedded") = .ok mathEnv ∧
    Environment.new.import_library "sys" (some "embedded") = .ok sysEnv ∧
    Environment.new.import_library "os" (some "embedded") = .ok osEnv ∧
    Environment.new.import_library "math" none = .ok mathEnv ∧
    Environment.new.import_library "sys" none = .ok sysEnv ∧
    Environment.new.import_library "os" none = .ok osEnv ∧
    Environment.new.import_library "io" (some "embedded") =
      .error (.InterpreterError "Embedded library not found") ∧
    Environment.new.import_library "mem" (some "embedded") =
      .error (.InterpreterError "Embedded library not found") ∧
    mathFunctionNames.all (fun f => (libGetFunction "math" f).isSome) = true ∧
    sysFunctionNames.all (fun f => (libGetFunction "sys" f).isSome) = true ∧
    osFunctionNames.all (fun f => (libGetFunction "os" f).isSome) = true ∧
    interpretNodes 20
        [ .ImportLib "math" (some "embedded")
        , .LibraryFunctionCall "math" "sqrt" [ .Number 16 ] ]
        none Environment.new st0 =
      .ok (some (.Float 4)) mathEnv st0 ∧
    (∀ h : HostState,
      interpretNodes 20
          [ .ImportLib "sys" (some "embedded")
          , .LibraryFunctionCall "sys" "getpid" [] ]
          none Environment.new { st0 with host := h } =
        .ok (some (.Number h.pid)) sysEnv { st0 with host := h }) ∧
    (∀ h : HostState,
      interpretNodes 20
          [ .ImportLib "os" (some "embedded")
          , .LibraryFunctionCall "os" "exists" [ .String "/tmp" ] ]
          none Environment.new { st0 with host := h } =
        .ok (some (.Boolean (h.fs_exists "/tmp"))) osEnv { st0 with host := h }) := by
  refine ⟨rfl, rfl, rfl, rfl, rfl, rfl, rfl, rfl, rfl, rfl, rfl, ?_,
    fun h => rfl, fun h => rfl⟩
  have h4 : f64Sqrt ((16 : Int) : ℚ) = 4 := by
    have hp : perfectSqrt 16 = some 4 := rfl
    simp [f64Sqrt, hp]
  calc interpretNodes 20
        [ .ImportLib "math" (some "embedded")
        , .LibraryFunctionCall "math" "sqrt" [ .Number 16 ] ]
        none Environment.new st0
      = .ok (some (.Float (f64Sqrt ((16 : Int) : ℚ)))) mathEnv st0 := rfl
    _ = .ok (some (.Float 4)) mathEnv st0 := by rw [h4]

/-- C7: `break`/`continue` with `in_loop` false fail with
`BreakOutsideLoop`/`ContinueOutsideLoop` and succeed (as sentinels) with it
true; `return` fails with `ReturnOutsideFunction` exactly when
`in_function` is false; and concretely a `break` inside a `while` body and
a `return` inside a function body run without error. -/
theorem C7_control_flow_guards :
    (∀ (env : Environment) (st : RunState),
      interpret_node 1 .Break env st false = .err .BreakOutsideLoop env st) ∧
    (∀ (env : Environment) (st : RunState),
      interpret_node 1 .Break env st true = .ok .Break env st) ∧
    (∀ (env : Environment) (st : RunState),
      interpret_node 1 .Continue env st false = .err .ContinueOutsideLoop env st) ∧
    (∀ (env : Environment) (st : RunState),
      interpret_node 1 .Continue env st true = .ok .Continue env st) ∧
    (∀ (env : Environment) (st : RunState) (e : Option ASTNode) (inLoop : Bool),
      env.in_function = false →
      interpret_node 1 (.Return e) env st inLoop = .err .ReturnOutsideFunction env st) ∧
    (∀ (env : Environment) (st : RunState) (inLoop : Bool),
      env.in_function = true →
      interpret_node 1 (.Return none) env st inLoop =
        .ok (.ReturnValue .Null) env st) ∧
    interpret 20 [ .While (.Boolean true) [ .Break ] ] st0 =
      .ok (some .Null) Environment.new st0 ∧
    interpret 20
        [ .FunctionDecl "r1" [] [ .Return (some (.Number 42)) ]
        , .FunctionCall "r1" [] ] st0 =
      .ok (some (.Number 42)) envAfterR1 st0 := by
  refine ⟨fun env st => rfl, fun env st => rfl, fun env st => rfl,
    fun env st => rfl, ?_, ?_, rfl, rfl⟩
  · intro env st e inLoop h
    cases e <;> simp [interpret_node, h]
  · intro env st inLoop h
    simp [interpret_node, h]

/-- C7, witnessed at the fresh global environment (where `in_function` is
false) and at the same environment with `in_function` set. -/
theorem C7_witness :
    interpret_node 1 (.Return none) Environment.new st0 false =
      .err .ReturnOutsideFunction Environment.new st0 ∧
    interpret_node 1 (.Return none)
        { Environment.new with in_function := true } st0 false =
      .ok (.ReturnValue .Null) { Environment.new with in_function := true } st0 :=
  ⟨C7_control_flow_guards.2.2.2.2.1 Environment.new st0 none false rfl,
   C7_control_flow_guards.2.2.2.2.2.1
     { Environment.new with in_function := true } st0 false rfl⟩

/-- C8 counterexample: the claim says a call of `insert` whose first
argument is not a bare identifier is pure — a fresh array, every existing
backing sequence untouched. But `std.insert` mutates through the shared
handle and returns the *same* handle (std.rs:142-168): with `a = [[9]]`,
the call `insert(a[0], 7)` returns the handle of the existing inner array
and its backing grows from `[9]` to `[9, 7]`. -/
theorem C8_counterexample :
    interpret_node 20
        (.FunctionCall "insert" [ .Index (.Identifier "a") (.Number 0), .Number 7 ])
        (c8Env true) { st0 with store := [[.Array 1], [.Number 9]] } false =
      .ok (.Array 1) (c8Env true)
        { st0 with store := [[.Array 1], [.Number 9, .Number 7]] } ∧
    ¬ ([Value.Number 9, Value.Number 7] = [Value.Number 9]) :=
  ⟨rfl, by simp⟩

/-- C9: the claim (an explicit open question of the spec) says some string
multiplication with a complex, side-effecting right operand evaluates that
operand twice, firing the side effect twice. Witness: with
`func f(){ print("hi"); return "ab"; }`, evaluating `"x" * f()` enters the
`(String, String)` multiply arm, which re-evaluates the right operand node
(interpreter.rs:572) — the output trace shows `hi` twice (the call then
fails, as the re-evaluated operand is again not a `Number`). -/
theorem C9_string_mul_double_eval :
    interpret 99 strMulProg st0 =
      .err (.TypeError "String can only be multiplied by an integer")
        envAfterStrMulDecl { st0 with output := "hi\nhi\n" } :=
  rfl

/-- C10: a `while`/`for` loop ends its iteration cycle only on a condition
that is exactly `Boolean(false)`; any other condition value — `Number`
(`0` included), `String`, `Null`, `Array`, `Boolean(true)` — starts another
iteration, with no type error (interpreter.rs:773-775, 997-999). The
general conjuncts characterize one loop step; the concrete programs run a
body to completion under a `Number 0` and a `String` condition. -/
theorem C10_loop_condition_only_false_exits :
    (∀ (fuel : Nat) (c : ASTNode) (b : List ASTNode) (acc : Value)
        (env env1 : Environment) (st st1 : RunState),
      interpret_node fuel c env st true = .ok (.Boolean false) env1 st1 →
      whileLoop (fuel + 1) c b acc env st = .ok acc env1 st1) ∧
    (∀ (fuel : Nat) (c : ASTNode) (b : List ASTNode) (acc acc2 v : Value)
        (env env1 env2 : Environment) (st st1 st2 : RunState),
      interpret_node fuel c env st true = .ok v env1 st1 →
      v ≠ .Boolean false →
      loopBody fuel b acc env1 st1 = .done .brk acc2 env2 st2 →
      whileLoop (fuel + 1) c b acc env st = .ok acc2 env2 st2) ∧
    (∀ (fuel : Nat) (c u : ASTNode) (b : List ASTNode) (acc : Value)
        (env env1 : Environment) (st st1 : RunState),
      interpret_node fuel c env st true = .ok (.Boolean false) env1 st1 →
      forLoop (fuel + 1) c u b acc env st = .ok acc env1 st1) ∧
    (∀ (fuel : Nat) (c u : ASTNode) (b : List ASTNode) (acc acc2 v : Value)
        (env env1 env2 : Environment) (st st1 st2 : RunState),
      interpret_node fuel c env st true = .ok v env1 st1 →
      v ≠ .Boolean false →
      loopBody fuel b acc env1 st1 = .done .brk acc2 env2 st2 →
      forLoop (fuel + 1) c u b acc env st = .ok acc2 env2 st2) ∧
    interpret 99 whileNumProg st0 =
      .ok (some (.Number 1))
        { Environment.new with scopes := [[("x", .Number 1, true)]] } st0 ∧
    interpret 99 forStrProg st0 =
      .ok (some (.Number 1))
        { Environment.new with scopes := [[("x", .Number 1, true)]] } st0 ∧
    interpret 99 whileFalseProg st0 =
      .ok (some (.Number 0))
        { Environment.new with scopes := [[("x", .Number 0, true)]] } st0 := by
  refine ⟨?_, ?_, ?_, ?_, rfl, rfl, rfl⟩
  · intro fuel c b acc env env1 st st1 h
    simp [whileLoop, h]
  · intro fuel c b acc acc2 v env env1 env2 st st1 st2 h1 h2 h3
    cases v <;> simp_all [whileLoop]
  · intro fuel c u b acc env env1 st st1 h
    simp [forLoop, h]
  · intro fuel c u b acc acc2 v env env1 env2 st st1 st2 h1 h2 h3
    cases v <;> simp_all [forLoop]

/-- C10, witnessed: a `Boolean false` condition ends each loop at once, and
a `Number 0` condition runs the body (which breaks). -/
theorem C10_witness :
    whileLoop 2 (.Boolean false) [] .Null Environment.new st0 =
      .ok .Null Environment.new st0 ∧
    whileLoop 3 (.Number 0) [ .Break ] .Null Environment.new st0 =
      .ok .Null Environment.new st0 ∧
    forLoop 2 (.Boolean false) .Null [] .Null Environment.new st0 =
      .ok .Null Environment.new st0 ∧
    forLoop 3 (.Number 0) .Null [ .Break ] .Null Environment.new st0 =
      .ok .Null Environment.new st0 :=
  ⟨C10_loop_condition_only_false_exits.1 1 (.Boolean false) [] .Null
      Environment.new Environment.new st0 st0 rfl,
   C10_loop_condition_only_false_exits.2.1 2 (.Number 0) [ .Break ] .Null .Null
      (.Number 0) Environment.new Environment.new Environment.new st0 st0 st0
      rfl (by simp) rfl,
   C10_loop_condition_only_false_exits.2.2.1 1 (.Boolean false) .Null [] .Null
      Environment.new Environment.new st0 st0 rfl,
   C10_loop_condition_only_false_exits.2.2.2.1 2 (.Number 0) .Null [ .Break ]
      .Null .Null (.Number 0) Environment.new Environment.new Environment.new
      st0 st0 st0 rfl (by simp) rfl⟩

/-- C3: the alias invariant. With `a` a mutable binding holding an array
handle and any valid index `i`, executing `b = a; b[i] = c;` (the copied
value `c` standing for `v`) stores through the shared backing sequence, so
the subsequent read `a[i]` yields the new value: assignment copies the
handle (`shallow_clone`, an address copy), not the data. And a non-array
value — apart from the `ReturnValue` sentinel, which is unwrapped at every
call boundary and can never reach a binding — holds no store reference at
all, so its copy is independent. -/
theorem C3_array_alias_invariant :
    (∀ (xs : List Value) (i : Nat) (w v0 : Value),
      i < xs.length → i < 18446744073709551616 →
      interpret_node 20 (.Assign "b" (.Identifier "a"))
          (aliasEnv v0 w) (oneRowSt xs) false =
        .ok .Null (aliasEnv (.Array 0) w) (oneRowSt xs) ∧
      interpret_node 20
          (.IndexAssign (.Identifier "b") (.Number (i : Int)) (.Identifier "c"))
          (aliasEnv (.Array 0) w) (oneRowSt xs) false =
        .ok .Null (aliasEnv (.Array 0) w) (oneRowSt (xs.set i w)) ∧
      interpret_node 20 (.Index (.Identifier "a") (.Number (i : Int)))
          (aliasEnv (.Array 0) w) (oneRowSt (xs.set i w)) false =
        .ok w (aliasEnv (.Array 0) w) (oneRowSt (xs.set i w))) ∧
    (∀ v : Value, v.shallow_clone = v) ∧
    (∀ v : Value,
      v.isHandle = false → v.isReturnSentinel = false → valRefs v = []) := by
  refine ⟨?_, fun v => rfl, ?_⟩
  · intro xs i w v0 h1 h2
    have ha : asU64 ((i : Nat) : Int) = i := by
      unfold asU64
      rw [Int.emod_eq_of_lt (by positivity) (by exact_mod_cast h2)]
      simp
    have hb : ¬ (xs.length ≤ i) := by omega
    refine ⟨rfl, ?_, ?_⟩
    · simp [interpret_node, aliasEnv, oneRowSt, st0, Environment.get,
        scopesGet, scopeGet, Environment.setVar, scopesSetVal, scopeSetVal,
        ha, hb, Environment.new]
    · have hneg : ¬ ((i : Int) < 0) := by omega
      have hget : (xs.set i w)[i]?.getD Value.Null = w := by
        rw [List.getElem?_set_eq_of_lt w h1, Option.getD_some]
      simp [interpret_node, aliasEnv, oneRowSt, st0, Environment.get,
        scopesGet, scopeGet, hneg, hb, hget, Environment.new]
  · intro v h1 h2
    cases v <;> simp_all [valRefs, Value.isHandle, Value.isReturnSentinel]

/-- C3, witnessed at `a = [5, 6]`, `i = 1`, `v = 7`. -/
theorem C3_witness :
    (interpret_node 20 (.Assign "b" (.Identifier "a"))
        (aliasEnv .Null (.Number 7)) (oneRowSt [.Number 5, .Number 6]) false =
      .ok .Null (aliasEnv (.Array 0) (.Number 7))
        (oneRowSt [.Number 5, .Number 6])) ∧
    (interpret_node 20 (.Index (.Identifier "a") (.Number (1 : Int)))
        (aliasEnv (.Array 0) (.Number 7))
        (oneRowSt ([.Number 5, .Number 6].set 1 (.Number 7))) false =
      .ok (.Number 7) (aliasEnv (.Array 0) (.Number 7))
        (oneRowSt ([.Number 5, .Number 6].set 1 (.Number 7)))) ∧
    valRefs (.Number 3) = [] :=
  ⟨(C3_array_alias_invariant.1 [.Number 5, .Number 6] 1 (.Number 7) .Null
      (by decide) (by decide)).1,
   (C3_array_alias_invariant.1 [.Number 5, .Number 6] 1 (.Number 7) .Null
      (by decide) (by decide)).2.2,
   C3_array_alias_invariant.2.2 (.Number 3) rfl rfl⟩

/-- C8 amended: for `sort`, `reverse` and `clear` the claim holds as
stated — a bare call with a mutable-array identifier writes the fresh
result array back into the binding (and the call yields `Null`); with an
immutable identifier it fails with `TypeError` leaving the binding
unchanged (the fresh result array is still allocated first); with any
non-identifier first argument it is pure (a fresh array, existing bindings
and backings untouched). `insert`, however, mutates the argument array's
backing **in place** and returns the *same* handle, so it is observably
in-place in every call form (with a mutable identifier the write-back
re-stores the same handle and the call yields `Null`). The `sort`
conjuncts are conditional on the comparison succeeding
(`sortVals xs = some ys`); the reverse/clear/insert conjuncts are
unconditional over the backing sequence. -/
theorem C8_amended :
    (∀ xs : List Value,
      interpret_node 20 (.FunctionCall "reverse" [ .Identifier "a" ])
          (c8Env true) (oneRowSt xs) false =
        .ok .Null { Environment.new with scopes := [[("a", .Array 1, true)]] }
          { st0 with store := [xs, xs.reverse] }) ∧
    (∀ xs : List Value,
      interpret_node 20 (.FunctionCall "reverse" [ .Identifier "a" ])
          (c8Env false) (oneRowSt xs) false =
        .err (.TypeError "Cannot modify immutable array 'a'") (c8Env false)
          { st0 with store := [xs, xs.reverse] }) ∧
    (∀ xs : List Value,
      interpret_node 20
          (.FunctionCall "reverse" [ .Array [ .Number 1, .Number 2 ] ])
          (c8Env true) (oneRowSt xs) false =
        .ok (.Array 2) (c8Env true)
          { st0 with
            store := [xs, [.Number 1, .Number 2], [.Number 2, .Number 1]] }) ∧
    (∀ (xs ys : List Value), sortVals xs = some ys →
      interpret_node 20 (.FunctionCall "sort" [ .Identifier "a" ])
          (c8Env true) (oneRowSt xs) false =
        .ok .Null { Environment.new with scopes := [[("a", .Array 1, true)]] }
          { st0 with store := [xs, ys] }) ∧
    (∀ (xs ys : List Value), sortVals xs = some ys →
      interpret_node 20 (.FunctionCall "sort" [ .Identifier "a" ])
          (c8Env false) (oneRowSt xs) false =
        .err (.TypeError "Cannot modify immutable array 'a'") (c8Env false)
          { st0 with store := [xs, ys] }) ∧
    (∀ xs : List Value,
      interpret_node 20
          (.FunctionCall "sort" [ .Array [ .Number 2, .Number 1 ] ])
          (c8Env true) (oneRowSt xs) false =
        .ok (.Array 2) (c8Env true)
          { st0 with
            store := [xs, [.Number 2, .Number 1], [.Number 1, .Number 2]] }) ∧
    (∀ xs : List Value,
      interpret_node 20 (.FunctionCall "clear" [ .Identifier "a" ])
          (c8Env true) (oneRowSt xs) false =
        .ok .Null { Environment.new with scopes := [[("a", .Array 1, true)]] }
          { st0 with store := [xs, []] }) ∧
    (∀ xs : List Value,
      interpret_node 20 (.FunctionCall "clear" [ .Identifier "a" ])
          (c8Env false) (oneRowSt xs) false =
        .err (.TypeError "Cannot modify immutable array 'a'") (c8Env false)
          { st0 with store := [xs, []] }) ∧
    (∀ xs : List Value,
      interpret_node 20
          (.FunctionCall "clear" [ .Array [ .Number 1, .Number 2 ] ])
          (c8Env true) (oneRowSt xs) false =
        .ok (.Array 2) (c8Env true)
          { st0 with store := [xs, [.Number 1, .Number 2], []] }) ∧
    (∀ (xs : List Value) (k : Int),
      interpret_node 20 (.FunctionCall "insert" [ .Identifier "a", .Number k ])
          (c8Env true) (oneRowSt xs) false =
        .ok .Null (c8Env true) { st0 with store := [xs ++ [.Number k]] }) := by
  refine ⟨fun xs => rfl, fun xs => rfl, fun xs => rfl, ?_, ?_,
    fun xs => rfl, fun xs => rfl, fun xs => rfl, fun xs => rfl,
    fun xs k => rfl⟩
  · intro xs ys hsort
    simp [interpret_node, evalArgs, c8Env, oneRowSt, st0, Environment.new,
      stdFunctionNames, funsGet, strStartsWithStd, stripStd, stdGetFunction,
      stdSort, hsort, get_array_name, Environment.get, scopesGet, scopeGet,
      Environment.setVar, scopesSetVal, scopeSetVal, libGetFunction]
  · intro xs ys hsort
    simp [interpret_node, evalArgs, c8Env, oneRowSt, st0, Environment.new,
      stdFunctionNames, funsGet, strStartsWithStd, stripStd, stdGetFunction,
      stdSort, hsort, get_array_name, Environment.get, scopesGet, scopeGet,
      libGetFunction]

/-- C8 amended, witnessed: the conditional `sort` conjuncts applied at the
backing `[2, 1]`, whose comparison-sort is `[1, 2]`. -/
theorem C8_amended_witness :
    (interpret_node 20 (.FunctionCall "sort" [ .Identifier "a" ])
        (c8Env true) (oneRowSt [.Number 2, .Number 1]) false =
      .ok .Null { Environment.new with scopes := [[("a", .Array 1, true)]] }
        { st0 with
          store := [[.Number 2, .Number 1], [.Number 1, .Number 2]] }) ∧
    (interpret_node 20 (.FunctionCall "sort" [ .Identifier "a" ])
        (c8Env false) (oneRowSt [.Number 2, .Number 1]) false =
      .err (.TypeError "Cannot modify immutable array 'a'") (c8Env false)
        { st0 with
          store := [[.Number 2, .Number 1], [.Number 1, .Number 2]] }) :=
  ⟨C8_amended.2.2.2.1 [.Number 2, .Number 1] [.Number 1, .Number 2] rfl,
   C8_amended.2.2.2.2.1 [.Number 2, .Number 1] [.Number 1, .Number 2] rfl⟩

end Tidal
